import Mathlib

/-!
# Verification of the distributed client simulator

A shallow embedding of the C++ sources (ClientTypes.h, Stats.h, Client.h,
ClientSimulator.h) of the distributed-client presence simulator, together
with theorems settling the specification claims about it.

Modelling conventions:
* `uint32_t` subtraction is wrapped explicitly via `sub32`; counters are
  modelled as unbounded naturals.
* `std::hash_map` values iterated by the code are modelled as association
  lists (`List (Nat × _)`); `operator[]` reads that may default-insert are
  modelled by `alReadD`.  Maps that are only point-read or point-written
  (the stats sink's per-client tables, the simulator's canonical state
  table and sleep schedule) are modelled as total functions with the
  zero-initialised default.
* `rand()` is modelled by an explicit tape of draws (`List Nat`); loops
  that retry random draws recurse on the tape and return `none` when it is
  exhausted, which models divergence of the corresponding C++ loop.
-/

/-- Wrapped `uint32_t` subtraction `a - b`. -/
def sub32 (a b : Nat) : Nat :=
  (a % 2 ^ 32 + (2 ^ 32 - b % 2 ^ 32)) % 2 ^ 32

theorem sub32_eq_of_le (a b : Nat) (hba : b ≤ a) (ha : a < 2 ^ 32) :
    sub32 a b = a - b := by
  have hb : b < 2 ^ 32 := lt_of_le_of_lt hba ha
  unfold sub32
  rw [Nat.mod_eq_of_lt ha, Nat.mod_eq_of_lt hb]
  have h1 : a + (2 ^ 32 - b) = 2 ^ 32 + (a - b) := by omega
  rw [h1, Nat.add_mod_left, Nat.mod_eq_of_lt (by omega)]

/-- `enum ClientState` from ClientTypes.h. -/
inductive ClientState where
  | ONLINE
  | OFFLINE
deriving DecidableEq, Repr

/-- `enum ClientMessageType` from ClientTypes.h. -/
inductive ClientMessageType where
  | HEARTBEAT
  | DISCOVERY
  | GOSSIP
deriving DecidableEq, Repr

/-- `struct ClientMessage` from ClientTypes.h; `ClientSet` is a list of ids. -/
structure ClientMessage where
  recipientId : Nat
  senderId : Nat
  timestamp : Nat
  gossipId : Nat
  messageType : ClientMessageType
  clientChain : List Nat
deriving DecidableEq, Repr

/-! ## Association-list model of `std::hash_map` -/

/-- Value lookup in a hash map. -/
def alFind? {α : Type} (m : List (Nat × α)) (k : Nat) : Option α :=
  (m.find? (fun p => p.1 == k)).map (fun p => p.2)

/-- Lookup with a default (the value of a missing entry after zero-init). -/
def alGetD {α : Type} (d : α) (m : List (Nat × α)) (k : Nat) : α :=
  (alFind? m k).getD d

/-- `operator[]` assignment: update in place, else append an entry. -/
def alSet {α : Type} : List (Nat × α) → Nat → α → List (Nat × α)
  | [], k, v => [(k, v)]
  | p :: rest, k, v =>
      if p.1 = k then (k, v) :: rest else p :: alSet rest k v

/-- `operator[]` read: return the stored value, default-inserting a missing
entry (the default is the zero-initialised value). -/
def alReadD {α : Type} (d : α) (m : List (Nat × α)) (k : Nat) :
    α × List (Nat × α) :=
  match alFind? m k with
  | some v => (v, m)
  | none => (d, m ++ [(k, d)])

theorem alFind?_cons {α : Type} (p : Nat × α) (rest : List (Nat × α))
    (b : Nat) :
    alFind? (p :: rest) b =
      if p.1 = b then some p.2 else alFind? rest b := by
  by_cases hpb : p.1 = b
  · unfold alFind?
    rw [List.find?_cons_of_pos _ (by simp [hpb])]
    simp [hpb]
  · unfold alFind?
    rw [List.find?_cons_of_neg _ (by simp [hpb])]
    simp [hpb]

theorem alFind?_alSet {α : Type} (m : List (Nat × α)) (k : Nat) (v : α)
    (b : Nat) :
    alFind? (alSet m k v) b = if b = k then some v else alFind? m b := by
  induction m with
  | nil =>
      show alFind? [(k, v)] b = _
      rw [alFind?_cons]
      by_cases hbk : b = k
      · simp [hbk]
      · simp [hbk, alFind?, Ne.symm hbk]
  | cons p rest ih =>
      by_cases hpk : p.1 = k
      · show alFind? (if p.1 = k then (k, v) :: rest else _) b = _
        rw [if_pos hpk, alFind?_cons, alFind?_cons]
        by_cases hbk : b = k
        · simp [hbk]
        · simp only [hpk]
          simp [Ne.symm hbk, hbk]
      · show alFind? (if p.1 = k then _ else p :: alSet rest k v) b = _
        rw [if_neg hpk, alFind?_cons, alFind?_cons, ih]
        by_cases hpb : p.1 = b
        · have hbk : ¬ b = k := fun h => hpk (hpb.trans h)
          simp [hpb, hbk]
        · simp [hpb]

theorem alGetD_alSet {α : Type} (d : α) (m : List (Nat × α)) (k : Nat)
    (v : α) (b : Nat) :
    alGetD d (alSet m k v) b = if b = k then v else alGetD d m b := by
  unfold alGetD
  rw [alFind?_alSet]
  by_cases hbk : b = k <;> simp [hbk]

theorem alReadD_fst {α : Type} (d : α) (m : List (Nat × α)) (k : Nat) :
    (alReadD d m k).1 = alGetD d m k := by
  unfold alReadD alGetD
  cases h : alFind? m k <;> simp [h]

theorem alFind?_append_single {α : Type} (m : List (Nat × α)) (k : Nat)
    (d : α) (b : Nat) :
    alFind? (m ++ [(k, d)]) b =
      match alFind? m b with
      | some v => some v
      | none => if k = b then some d else none := by
  induction m with
  | nil =>
      show alFind? [(k, d)] b = _
      rw [alFind?_cons]
      by_cases hkb : k = b <;> simp [hkb, alFind?]
  | cons p rest ih =>
      show alFind? (p :: (rest ++ [(k, d)])) b = _
      rw [alFind?_cons, alFind?_cons]
      by_cases hpb : p.1 = b
      · simp [hpb]
      · simp only [if_neg hpb]
        exact ih

theorem alGetD_alReadD {α : Type} (d : α) (m : List (Nat × α)) (k b : Nat) :
    alGetD d (alReadD d m k).2 b = alGetD d m b := by
  unfold alReadD
  cases h : alFind? m k with
  | some v => simp
  | none =>
      simp only
      unfold alGetD
      rw [alFind?_append_single]
      cases hb : alFind? m b with
      | some w => simp
      | none =>
          by_cases hkb : k = b

          · subst hkb; rw [h] at hb; simp [hb]
          · simp [hkb]

/-! ## Set model of `std::hash_set` over ids -/

/-- `hash_set::insert` of a single element. -/
def setInsert (s : List Nat) (x : Nat) : List Nat :=
  if x ∈ s then s else s ++ [x]

/-- `hash_set::insert(first, last)` of a whole range. -/
def setInsertAll (s : List Nat) (xs : List Nat) : List Nat :=
  xs.foldl setInsert s

theorem mem_setInsert_self (s : List Nat) (x : Nat) : x ∈ setInsert s x := by
  unfold setInsert
  by_cases h : x ∈ s <;> simp [h]

theorem mem_setInsert_of_mem (s : List Nat) (x y : Nat) (h : y ∈ s) :
    y ∈ setInsert s x := by
  unfold setInsert
  by_cases hx : x ∈ s <;> simp [hx, h]

theorem mem_setInsertAll_of_mem_left (s xs : List Nat) (y : Nat)
    (h : y ∈ s) : y ∈ setInsertAll s xs := by
  induction xs generalizing s with
  | nil => exact h
  | cons z zs ih => exact ih (setInsert s z) (mem_setInsert_of_mem s z y h)

theorem mem_setInsertAll_of_mem_right (s xs : List Nat) (x : Nat)
    (h : x ∈ xs) : x ∈ setInsertAll s xs := by
  induction xs generalizing s with
  | nil => cases h
  | cons y ys ih =>
      rcases List.mem_cons.mp h with h1 | h1
      · subst h1
        exact mem_setInsertAll_of_mem_left (setInsert s x) ys x
          (mem_setInsert_self s x)
      · exact ih (setInsert s y) h1

/-! ## Stats sink (`SimulatorStatistics`, Stats.h) -/

/-- `class SimulatorStatistics` from Stats.h.  The per-client tables
`stateSwitches_` and `state_` are modelled as total functions with the
zero-initialised defaults (`0` and `ONLINE`), which is observationally
equivalent to the hash maps' default-inserting reads. -/
structure SimulatorStatistics where
  totalConvergenceTime : Nat
  totalPresenceUpdates : Nat
  totalMessagesSent : Nat
  totalDroppedMessages : Nat
  totalBuddyRecords : Nat
  totalCorrectBuddyRecords : Nat
  totalSleepTime : Nat
  totalSleepStates : Nat
  stateSwitches : Nat → Nat
  lastState : Nat → ClientState

namespace SimulatorStatistics

def addConvergenceTime (s : SimulatorStatistics) (t : Nat) :
    SimulatorStatistics :=
  { s with totalConvergenceTime := s.totalConvergenceTime + t }

def addSleepTime (s : SimulatorStatistics) (t : Nat) : SimulatorStatistics :=
  { s with totalSleepTime := s.totalSleepTime + t }

def incrementSleepStates (s : SimulatorStatistics) : SimulatorStatistics :=
  { s with totalSleepStates := s.totalSleepStates + 1 }

def incrementPresenceUpdates (s : SimulatorStatistics) :
    SimulatorStatistics :=
  { s with totalPresenceUpdates := s.totalPresenceUpdates + 1 }

def incrementMessagesSent (s : SimulatorStatistics) : SimulatorStatistics :=
  { s with totalMessagesSent := s.totalMessagesSent + 1 }

def incrementMessagesDropped (s : SimulatorStatistics) :
    SimulatorStatistics :=
  { s with totalDroppedMessages := s.totalDroppedMessages + 1 }

def incrementTotalBuddyRecords (s : SimulatorStatistics) :
    SimulatorStatistics :=
  { s with totalBuddyRecords := s.totalBuddyRecords + 1 }

def incrementTotalCorrectBuddyRecords (s : SimulatorStatistics) :
    SimulatorStatistics :=
  { s with totalCorrectBuddyRecords := s.totalCorrectBuddyRecords + 1 }

def addStateSwitch (s : SimulatorStatistics) (clientId t : Nat)
    (state : ClientState) : SimulatorStatistics :=
  { s with stateSwitches := Function.update s.stateSwitches clientId t,
           lastState := Function.update s.lastState clientId state }

def getLastStateSwitch (s : SimulatorStatistics) (clientId : Nat) : Nat :=
  s.stateSwitches clientId

def getLastState (s : SimulatorStatistics) (clientId : Nat) : ClientState :=
  s.lastState clientId

/-- The freshly constructed stats sink (counters zero). -/
def init : SimulatorStatistics :=
  { totalConvergenceTime := 0, totalPresenceUpdates := 0,
    totalMessagesSent := 0, totalDroppedMessages := 0,
    totalBuddyRecords := 0, totalCorrectBuddyRecords := 0,
    totalSleepTime := 0, totalSleepStates := 0,
    stateSwitches := fun _ => 0, lastState := fun _ => ClientState.ONLINE }

end SimulatorStatistics

/-! ## Client base class (Client.h) -/

/-- Fields of `class Client` from Client.h.  `ClientList` values are lists
of ids, `ClientSet` values are duplicate-free lists, `ClientStateMap` is an
association list. -/
structure Client where
  clientId : Nat
  buddyCount : Nat
  nodeCount : Nat
  sleepPeriod : Nat
  observerCount : Nat
  state : ClientState
  buddies : List Nat
  observers : List Nat
  buddiesSet : List Nat
  observersSet : List Nat
  buddyState : List (Nat × ClientState)
deriving DecidableEq, Repr

namespace Client

/-- `Client::Client`: the freshly constructed client. -/
def init (clientId buddyCount nodeCount initialSleepPeriod : Nat)
    (initialState : ClientState) : Client :=
  { clientId := clientId, buddyCount := buddyCount, nodeCount := nodeCount,
    sleepPeriod := initialSleepPeriod, observerCount := 0,
    state := initialState, buddies := [], observers := [],
    buddiesSet := [], observersSet := [], buddyState := [] }

/-- `Client::switchState`: flip ONLINE/OFFLINE, returning the new state. -/
def switchState (c : Client) : ClientState × Client :=
  match c.state with
  | ClientState.ONLINE => (ClientState.OFFLINE, { c with state := ClientState.OFFLINE })
  | ClientState.OFFLINE => (ClientState.ONLINE, { c with state := ClientState.ONLINE })

/-- `Client::addBuddy`. -/
def addBuddy (c : Client) (buddyId : Nat) (buddyState : ClientState) :
    Bool × Client :=
  if c.clientId = buddyId ∨ buddyId ∈ c.buddiesSet then (false, c)
  else
    (true,
     { c with buddies := c.buddies ++ [buddyId],
              buddiesSet := setInsert c.buddiesSet buddyId,
              buddyState := alSet c.buddyState buddyId buddyState })

/-- `Client::addObserver`. -/
def addObserver (c : Client) (clientId : Nat) : Bool × Client :=
  if c.clientId = clientId ∨ clientId ∈ c.observersSet then (false, c)
  else
    (true,
     { c with observers := c.observers ++ [clientId],
              observersSet := setInsert c.observersSet clientId,
              observerCount := c.observerCount + 1 })

/-- `Client::VerifyState`: walk `buddyState_`, counting every record and
the records agreeing with the truth map.  (The map's default-inserting
read on the truth map is value-equal to a total-function read.) -/
def VerifyState (c : Client) (stateMap : Nat → ClientState)
    (stats : SimulatorStatistics) : SimulatorStatistics :=
  c.buddyState.foldl
    (fun st p =>
      if stateMap p.1 = p.2 then
        (st.incrementTotalBuddyRecords).incrementTotalCorrectBuddyRecords
      else st.incrementTotalBuddyRecords)
    stats

def isOnline (c : Client) : Bool := c.state = ClientState.ONLINE

/-- `Client::createMessage`. -/
def createMessage (c : Client) (recipientId : Nat)
    (type : ClientMessageType) (timestamp gossipId : Nat)
    (clientChain : List Nat) : ClientMessage :=
  { recipientId := recipientId, senderId := c.clientId,
    gossipId := gossipId, messageType := type,
    clientChain := clientChain, timestamp := timestamp }

end Client

/-! ## GossipClient (Client.h) -/

/-- `class GossipClient : public Client`. -/
structure GossipClient extends Client where
  lastGossipRequest : Nat
  messagesSent : Nat
  lastBuddyUpdate : List (Nat × Nat)
  gossipedNodes : List Nat
deriving DecidableEq, Repr

/-- `GossipClient::GossipClient`. -/
def GossipClient.init (clientId buddyCount nodeCount initialSleepPeriod : Nat)
    (initialState : ClientState) : GossipClient :=
  { toClient := Client.init clientId buddyCount nodeCount initialSleepPeriod initialState,
    lastGossipRequest := 0, messagesSent := 0,
    lastBuddyUpdate := [], gossipedNodes := [] }

/-- The new-cycle loop of `GossipClient::handleMessage` (lines 195-205):
every buddy's believed state is set to `OFFLINE` and, when the stats sink's
last recorded ground truth for that buddy is `OFFLINE`, a presence update
is credited with delta `timestamp - lastStateSwitch(sender)`. -/
def gossipNewCycleLoop (senderId ts : Nat) :
    SimulatorStatistics → List (Nat × ClientState) →
    List (Nat × ClientState) × SimulatorStatistics
  | stats, [] => ([], stats)
  | stats, p :: rest =>
      let stats1 :=
        if stats.getLastState p.1 = ClientState.OFFLINE then
          (stats.incrementPresenceUpdates).addConvergenceTime
            (sub32 ts (stats.getLastStateSwitch senderId))
        else stats
      let r := gossipNewCycleLoop senderId ts stats1 rest
      ((p.1, ClientState.OFFLINE) :: r.1, r.2)

/-- The cycle-detection block of `GossipClient::handleMessage`
(lines 189-206). -/
def gossipNewCycle (c : GossipClient) (stats : SimulatorStatistics)
    (msg : ClientMessage) : GossipClient × SimulatorStatistics :=
  let r := gossipNewCycleLoop msg.senderId msg.timestamp stats c.buddyState
  ({ c with gossipedNodes := [], messagesSent := 0,
            lastGossipRequest := msg.gossipId, buddyState := r.1 },
   r.2)

/-- The chain-absorption loop of `GossipClient::handleMessage`
(lines 227-242): every buddy is promoted to `ONLINE`; a presence update is
credited for each buddy not currently believed `ONLINE` whose recorded
ground truth is `ONLINE`. -/
def gossipAbsorbLoop (senderId ts : Nat) :
    SimulatorStatistics → List (Nat × ClientState) →
    List (Nat × ClientState) × SimulatorStatistics
  | stats, [] => ([], stats)
  | stats, p :: rest =>
      let stats1 :=
        if p.2 ≠ ClientState.ONLINE ∧ stats.getLastState p.1 = ClientState.ONLINE then
          (stats.incrementPresenceUpdates).addConvergenceTime
            (sub32 ts (stats.getLastStateSwitch senderId))
        else stats
      let r := gossipAbsorbLoop senderId ts stats1 rest
      ((p.1, ClientState.ONLINE) :: r.1, r.2)

/-- The random-observer selection of `GossipClient::handleMessage`
(lines 215-220) and of the first draw of `runTasks` (lines 267-272): keep
the current index `r` unless `observers[r]` is the client itself, in which
case redraw modulo `redrawLen` (`buddies_.size()` in `handleMessage`,
`observers_.size()` in `runTasks` - a quirk of the source).  `none` models
divergence of the C++ retry loop (tape exhausted). -/
def gossipPickLoop (obs : List Nat) (redrawLen cid : Nat) :
    Nat → List Nat → Option (Nat × List Nat)
  | r, [] => if obs.getD r 0 = cid then none else some (r, [])
  | r, x :: rest =>
      if obs.getD r 0 = cid then
        gossipPickLoop obs redrawLen cid (x % redrawLen) rest
      else some (r, x :: rest)

/-- The second selection loop of `GossipClient::runTasks` (lines 274-276):
redraw while `buddies[r2]` is the client itself or `r2` equals the first
index; redraws are modulo `buddies_.size()` (a quirk of the source). -/
def gossipPick2Loop (bud : List Nat) (cid r1 : Nat) :
    Nat → List Nat → Option (Nat × List Nat)
  | r2, [] => if bud.getD r2 0 = cid ∨ r2 = r1 then none else some (r2, [])
  | r2, x :: rest =>
      if bud.getD r2 0 = cid ∨ r2 = r1 then
        gossipPick2Loop bud cid r1 (x % bud.length) rest
      else some (r2, x :: rest)

/-- The part of `GossipClient::handleMessage` after cycle detection
(lines 208-253): fan-out cap check, random observer selection, chain
absorption and forwarding. -/
def gossipHandleRest (c : GossipClient) (stats : SimulatorStatistics)
    (msg : ClientMessage) (tape : List Nat) :
    Option (GossipClient × SimulatorStatistics × List ClientMessage × List Nat) :=
  if 5 ≤ c.messagesSent then some (c, stats, [], tape)
  else
    match tape with
    | [] => none
    | x :: tp =>
        match gossipPickLoop c.observers c.buddies.length c.clientId
            (x % c.observers.length) tp with
        | none => none
        | some (r, tp1) =>
            let gossiped := setInsertAll c.gossipedNodes msg.clientChain
            let ab := gossipAbsorbLoop msg.senderId msg.timestamp stats c.buddyState
            let chain1 := setInsert msg.clientChain c.clientId
            some
              ({ c with gossipedNodes := gossiped, buddyState := ab.1,
                        messagesSent := c.messagesSent + 1 },
               ab.2,
               [Client.createMessage c.toClient (c.observers.getD r 0)
                  ClientMessageType.GOSSIP msg.timestamp msg.gossipId chain1],
               tp1)

/-- `GossipClient::handleMessage` (lines 181-254). -/
def gossipHandleMessage (c : GossipClient) (stats : SimulatorStatistics)
    (msg : ClientMessage) (tape : List Nat) :
    Option (GossipClient × SimulatorStatistics × List ClientMessage × List Nat) :=
  if c.state = ClientState.ONLINE then
    if c.lastGossipRequest ≠ msg.gossipId then
      gossipHandleRest (gossipNewCycle c stats msg).1
        (gossipNewCycle c stats msg).2 msg tape
    else gossipHandleRest c stats msg tape
  else some (c, stats, [], tape)

/-- `GossipClient::runTasks` (lines 256-295). -/
def gossipRunTasks (c : GossipClient) (timestamp : Nat) (tape : List Nat) :
    Option (GossipClient × List ClientMessage × List Nat) :=
  if c.state = ClientState.ONLINE then
    match tape with
    | [] => none
    | x1 :: tp1 =>
        match tp1 with
        | [] => none
        | x2 :: tp2 =>
            match gossipPickLoop c.observers c.observers.length c.clientId
                (x1 % c.observers.length) tp2 with
            | none => none
            | some (r1, tp3) =>
                match gossipPick2Loop c.buddies c.clientId r1
                    (x2 % c.observers.length) tp3 with
                | none => none
                | some (r2, tp4) =>
                    some
                      ({ c with messagesSent := 2, gossipedNodes := [],
                                lastGossipRequest := timestamp },
                       [Client.createMessage c.toClient (c.observers.getD r1 0)
                          ClientMessageType.GOSSIP timestamp timestamp [c.clientId],
                        Client.createMessage c.toClient (c.observers.getD r2 0)
                          ClientMessageType.GOSSIP timestamp timestamp [c.clientId]],
                       tp4)
  else some (c, [], tape)

/-! ## HeartbeatClient (Client.h) -/

/-- `class HeartbeatClient : public Client`. -/
structure HeartbeatClient extends Client where
  nextObserver : Nat
  lastMessageTimestamp : Nat
  lastBuddyUpdate : List (Nat × Nat)
deriving DecidableEq, Repr

/-- `HeartbeatClient::HeartbeatClient`. -/
def HeartbeatClient.init (clientId buddyCount nodeCount initialSleepPeriod : Nat)
    (initialState : ClientState) : HeartbeatClient :=
  { toClient := Client.init clientId buddyCount nodeCount initialSleepPeriod initialState,
    nextObserver := 0, lastMessageTimestamp := 0, lastBuddyUpdate := [] }

/-- One iteration of the staleness sweep of `HeartbeatClient::runTasks`
(lines 373-399), for buddy `b`.  The `buddyState_[*i]` read is the
default-inserting `operator[]` (missing entries read as `ONLINE`, the
zero-initialised enum value). -/
def hbSweepStep (t obsLen : Nat)
    (p : HeartbeatClient × SimulatorStatistics) (b : Nat) :
    HeartbeatClient × SimulatorStatistics :=
  let c := p.1
  let stats := p.2
  let rd := alReadD ClientState.ONLINE c.buddyState b
  let c1 := { c with buddyState := rd.2 }
  if rd.1 = ClientState.OFFLINE then (c1, stats)
  else
    let lastBuddyUpd := alGetD 0 c1.lastBuddyUpdate b
    if obsLen * 12 * 3 < sub32 t lastBuddyUpd then
      ({ c1 with buddyState := alSet rd.2 b ClientState.OFFLINE },
       (stats.incrementPresenceUpdates).addConvergenceTime
         (sub32 t (stats.getLastStateSwitch b)))
    else (c1, stats)

/-- The emission gate of `HeartbeatClient::runTasks` (lines 360-371): if
the wrapped age of the last emission exceeds 11, push one `HEARTBEAT` to
`observers[nextObserver]` with empty chain and gossipId 0, stamp
`lastMessageTimestamp` and advance the round-robin cursor with
wrap-around. -/
def hbEmit (c : HeartbeatClient) (timestamp : Nat) :
    HeartbeatClient × List ClientMessage :=
  if 11 < sub32 timestamp c.lastMessageTimestamp then
    ({ c with lastMessageTimestamp := timestamp,
              nextObserver :=
                if c.observers.length ≤ c.nextObserver + 1 then 0
                else c.nextObserver + 1 },
     [Client.createMessage c.toClient (c.observers.getD c.nextObserver 0)
        ClientMessageType.HEARTBEAT timestamp 0 []])
  else (c, [])

/-- `HeartbeatClient::runTasks` (lines 354-400): emission gate followed by
the staleness sweep over `buddies_`. -/
def hbRunTasks (c : HeartbeatClient) (stats : SimulatorStatistics)
    (timestamp : Nat) :
    HeartbeatClient × SimulatorStatistics × List ClientMessage :=
  if c.state = ClientState.ONLINE then
    (((hbEmit c timestamp).1.buddies.foldl
        (hbSweepStep timestamp (hbEmit c timestamp).1.observers.length)
        ((hbEmit c timestamp).1, stats)).1,
     ((hbEmit c timestamp).1.buddies.foldl
        (hbSweepStep timestamp (hbEmit c timestamp).1.observers.length)
        ((hbEmit c timestamp).1, stats)).2,
     (hbEmit c timestamp).2)
  else (c, stats, [])

/-- The demotion condition of the staleness sweep for buddy `b`, read off
the client state at the start of the sweep: believed state (default
`ONLINE`) is not `OFFLINE`, and the wrapped age of the last heartbeat from
`b` (missing treated as `0`) exceeds `observers * 12 * 3`. -/
def hbDemote (obsLen t : Nat) (c : HeartbeatClient) (b : Nat) : Bool :=
  (!(alGetD ClientState.ONLINE c.buddyState b == ClientState.OFFLINE)) &&
    decide (obsLen * 12 * 3 < sub32 t (alGetD 0 c.lastBuddyUpdate b))

/-! ## Simulator core (ClientSimulator.h) -/

/-- The state of `class ClientSimulator` instantiated with `GossipClient`
(the reference configuration).  The fixed-size client array is modelled as
a total function together with the node count; `onlineClients_` and
`offlineClients_` as finite sets; `clientState_` and `sleepSchedule_` as
total functions with zero-initialised defaults. -/
structure SimState where
  numClients : Nat
  clients : Nat → GossipClient
  onlineClients : Finset Nat
  offlineClients : Finset Nat
  messageQueue : List ClientMessage
  stats : SimulatorStatistics
  clientState : Nat → ClientState
  sleepSchedule : Nat → Finset Nat

/-- The simulator before `initialize` runs: empty sets, empty queue, fresh
stats sink, zero-initialised tables. -/
def emptySim (n : Nat) : SimState :=
  { numClients := n,
    clients := fun _ => GossipClient.init 0 0 0 0 ClientState.OFFLINE,
    onlineClients := ∅, offlineClients := ∅, messageQueue := [],
    stats := SimulatorStatistics.init,
    clientState := fun _ => ClientState.ONLINE,
    sleepSchedule := fun _ => ∅ }

/-- `ClientSimulator::generateRandomState` applied to one draw. -/
def generateRandomState (draw : Nat) : ClientState :=
  if draw % 2 = 0 then ClientState.ONLINE else ClientState.OFFLINE

/-- The client-construction loop of `ClientSimulator::initialize`
(lines 71-93).  `draws` carries, for each client, the pair of random draws
for the initial sleep period and the initial state. -/
def initClientsLoop (buddyCount nodeCount : Nat) :
    Nat → List (Nat × Nat) → SimState → SimState
  | _, [], s => s
  | i, (d1, d2) :: rest, s =>
      let sleepPeriod := d1 % 4000
      let st := generateRandomState d2
      let c := GossipClient.init i buddyCount nodeCount sleepPeriod st
      let s1 : SimState :=
        { s with
          clients := Function.update s.clients i c,
          sleepSchedule := Function.update s.sleepSchedule sleepPeriod
            (insert i (s.sleepSchedule sleepPeriod)),
          stats := s.stats.addStateSwitch i 0 st,
          clientState := Function.update s.clientState i st,
          onlineClients :=
            if st = ClientState.ONLINE then insert i s.onlineClients
            else s.onlineClients,
          offlineClients :=
            if st = ClientState.ONLINE then s.offlineClients
            else insert i s.offlineClients }
      initClientsLoop buddyCount nodeCount (i + 1) rest s1

/-- The inner `while` of the buddy-generation phase of
`ClientSimulator::initialize` (lines 107-114), for node `j`: draw random
candidates until node `j` has `buddyCount` buddies, registering `j` as an
observer of each buddy added. -/
def buddyStep (nodeCount j x : Nat) (s : SimState) : SimState :=
  let buddyId := x % nodeCount
  let res := Client.addBuddy (s.clients j).toClient buddyId
    (s.clients buddyId).state
  let cj : GossipClient := { s.clients j with toClient := res.2 }
  let s1 : SimState := { s with clients := Function.update s.clients j cj }
  let cb : GossipClient :=
    { s1.clients buddyId with
      toClient := (Client.addObserver (s1.clients buddyId).toClient j).2 }
  if res.1 then
    { s1 with clients := Function.update s1.clients buddyId cb }
  else s1

def buildBuddyLoop (buddyCount nodeCount j : Nat) :
    SimState → List Nat → Option (SimState × List Nat)
  | s, [] =>
      if buddyCount ≤ (s.clients j).buddiesSet.length then some (s, [])
      else none
  | s, x :: rest =>
      if buddyCount ≤ (s.clients j).buddiesSet.length then some (s, x :: rest)
      else buildBuddyLoop buddyCount nodeCount j (buddyStep nodeCount j x s) rest

/-- The outer loop of the buddy-generation phase (lines 100-115). -/
def buildBuddiesFrom (buddyCount nodeCount : Nat) :
    List Nat → SimState → List Nat → Option SimState
  | [], s, _ => some s
  | j :: js, s, tape =>
      match buildBuddyLoop buddyCount nodeCount j s tape with
      | none => none
      | some (s1, tape1) => buildBuddiesFrom buddyCount nodeCount js s1 tape1

/-- `ClientSimulator::initialize` (lines 65-118): client construction
followed by buddy-list generation.  One pair of draws per client; the tape
feeds the buddy-candidate draws. -/
def initSimulator (buddyCount : Nat) (draws : List (Nat × Nat))
    (tape : List Nat) : Option SimState :=
  let n := draws.length
  let s1 := initClientsLoop buddyCount n 0 draws (emptySim n)
  buildBuddiesFrom buddyCount n (List.range n) s1 tape

/-- `ClientSimulator::switchClientState` (lines 151-177).  `d` is the
random draw for the new sleep duration.  As in the source, the sleep
schedule, canonical state table and stats sink are keyed by the stored
client's `getClientId()`, while the online/offline sets use the `clientId`
argument. -/
def switchClientState (s : SimState) (clientId t d : Nat) : SimState :=
  let c := s.clients clientId
  let c1 := { c with toClient := (Client.switchState c.toClient).2 }
  let sleepDuration := d % 4000 + 1
  { s with
    clients := Function.update s.clients clientId c1,
    sleepSchedule := Function.update s.sleepSchedule (t + sleepDuration)
      (insert c1.clientId (s.sleepSchedule (t + sleepDuration))),
    stats := (((s.stats.addSleepTime sleepDuration).incrementSleepStates).addStateSwitch
      c1.clientId t c1.state),
    clientState := Function.update s.clientState c1.clientId c1.state,
    onlineClients :=
      if c1.state = ClientState.ONLINE then insert clientId s.onlineClients
      else s.onlineClients.erase clientId,
    offlineClients :=
      if c1.state = ClientState.ONLINE then s.offlineClients.erase clientId
      else insert clientId s.offlineClients }

/-- `ClientSimulator::dispatchPendingMessages` (lines 134-148), with an
explicit fuel bound on the number of pops and an event trace recording
each popped message together with whether it was dropped.  Each pop
increments the sent counter; a draw below 5 of 100 drops the message,
otherwise it is delivered to `clients_[recipientId]` via `handleMessage`
(which consumes further tape and may enqueue at the back of the queue). -/
def drainLoop : Nat → SimState → List Nat →
    Option (SimState × List (ClientMessage × Bool))
  | 0, s, _ => if s.messageQueue = [] then some (s, []) else none
  | fuel + 1, s, tape =>
      match s.messageQueue with
      | [] => some (s, [])
      | m :: rest =>
          match tape with
          | [] => none
          | x :: tp =>
              if x % 100 < 5 then
                match drainLoop fuel
                    { s with stats :=
                        (s.stats.incrementMessagesSent).incrementMessagesDropped,
                             messageQueue := rest } tp with
                | none => none
                | some (s2, tr) => some (s2, (m, true) :: tr)
              else
                match gossipHandleMessage (s.clients m.recipientId)
                    (s.stats.incrementMessagesSent) m tp with
                | none => none
                | some (c1, stats2, out, tp1) =>
                    match drainLoop fuel
                        { s with
                          clients := Function.update s.clients m.recipientId c1,
                          stats := stats2,
                          messageQueue := rest ++ out } tp1 with
                    | none => none
                    | some (s2, tr) => some (s2, (m, false) :: tr)

/-- `dispatchPendingMessages` proper: the drained state, discarding the
event trace. -/
def dispatchPendingMessages (fuel : Nat) (s : SimState) (tape : List Nat) :
    Option SimState :=
  (drainLoop fuel s tape).map (fun r => r.1)

/-! ## Example values used by the witnesses -/

/-- A small concrete client used by witnesses. -/
def cEx : Client :=
  { clientId := 0, buddyCount := 2, nodeCount := 3, sleepPeriod := 0,
    observerCount := 2, state := ClientState.ONLINE,
    buddies := [1, 2], observers := [1, 2],
    buddiesSet := [1, 2], observersSet := [1, 2],
    buddyState := [(1, ClientState.ONLINE), (2, ClientState.OFFLINE)] }

/-- A small concrete gossip client used by witnesses. -/
def gcEx : GossipClient :=
  { toClient := cEx, lastGossipRequest := 0, messagesSent := 0,
    lastBuddyUpdate := [], gossipedNodes := [] }

/-- A stats sink whose recorded ground truth marks client 1 `OFFLINE` and
everyone else `ONLINE`. -/
def stEx : SimulatorStatistics :=
  { SimulatorStatistics.init with
    lastState := Function.update (fun _ => ClientState.ONLINE) 1 ClientState.OFFLINE }

/-- A gossip message from client 1 opening gossip cycle 7. -/
def msgEx : ClientMessage :=
  { recipientId := 0, senderId := 1, timestamp := 100, gossipId := 7,
    messageType := ClientMessageType.GOSSIP, clientChain := [1] }

/-! ## C10: failed addBuddy / addObserver calls are atomic -/

/-- Claim C10: whenever `addBuddy(b, s)` returns false (because `b` is the
node's own id or already a buddy) the client is completely unchanged - in
particular its buddies list, buddiesSet and buddyState map - and whenever
`addObserver(o)` returns false the client is likewise unchanged - in
particular its observers list, observersSet and observer count.  The
failure conditions are exactly the ones stated. -/
theorem add_buddy_observer_atomic_spec (c : Client) (b o : Nat)
    (st : ClientState) :
    ((c.addBuddy b st).1 = false → (c.addBuddy b st).2 = c) ∧
    ((c.addBuddy b st).1 = false ↔ (c.clientId = b ∨ b ∈ c.buddiesSet)) ∧
    ((c.addObserver o).1 = false → (c.addObserver o).2 = c) ∧
    ((c.addObserver o).1 = false ↔ (c.clientId = o ∨ o ∈ c.observersSet)) := by
  unfold Client.addBuddy Client.addObserver
  by_cases h1 : c.clientId = b ∨ b ∈ c.buddiesSet <;>
    by_cases h2 : c.clientId = o ∨ o ∈ c.observersSet <;>
      simp [h1, h2]

/-- Witness for C10 at a concrete client: adding the node's own id fails
and leaves the client unchanged. -/
theorem add_buddy_observer_atomic_witness :
    (cEx.addBuddy 0 ClientState.ONLINE).1 = false ∧
      (cEx.addBuddy 0 ClientState.ONLINE).2 = cEx :=
  ⟨by decide,
   (add_buddy_observer_atomic_spec cEx 0 0 ClientState.ONLINE).1 (by decide)⟩

/-! ## C9: VerifyState counts records and is idempotent on the ratio -/

theorem verifyFold_spec (truth : Nat → ClientState)
    (l : List (Nat × ClientState)) (stats : SimulatorStatistics) :
    l.foldl
        (fun st p =>
          if truth p.1 = p.2 then
            (st.incrementTotalBuddyRecords).incrementTotalCorrectBuddyRecords
          else st.incrementTotalBuddyRecords)
        stats =
      { stats with
        totalBuddyRecords := stats.totalBuddyRecords + l.length,
        totalCorrectBuddyRecords :=
          stats.totalCorrectBuddyRecords +
            l.countP (fun p => truth p.1 == p.2) } := by
  induction l generalizing stats with
  | nil => simp
  | cons p rest ih =>
      simp only [List.foldl_cons, List.countP_cons, List.length_cons]
      rw [ih]
      by_cases ht : truth p.1 = p.2 <;>
        simp [ht, SimulatorStatistics.incrementTotalBuddyRecords,
          SimulatorStatistics.incrementTotalCorrectBuddyRecords] <;>
        omega

/-- Claim C9: for every node and truth map, `VerifyState` increments the
total-records counter once per entry of `buddyState` and the correct-
records counter exactly for the entries agreeing with the truth map,
mutating nothing else in the stats sink; running it twice with no
intervening mutation doubles both counters and leaves the correct/total
ratio unchanged (starting from fresh record counters). -/
theorem verify_state_spec (c : Client) (truth : Nat → ClientState)
    (stats : SimulatorStatistics) :
    c.VerifyState truth stats =
      { stats with
        totalBuddyRecords := stats.totalBuddyRecords + c.buddyState.length,
        totalCorrectBuddyRecords :=
          stats.totalCorrectBuddyRecords +
            c.buddyState.countP (fun p => truth p.1 == p.2) } ∧
    c.VerifyState truth (c.VerifyState truth stats) =
      { stats with
        totalBuddyRecords :=
          stats.totalBuddyRecords + 2 * c.buddyState.length,
        totalCorrectBuddyRecords :=
          stats.totalCorrectBuddyRecords +
            2 * c.buddyState.countP (fun p => truth p.1 == p.2) } ∧
    (stats.totalBuddyRecords = 0 → stats.totalCorrectBuddyRecords = 0 →
      ((c.VerifyState truth (c.VerifyState truth stats)).totalCorrectBuddyRecords : ℚ) /
          ((c.VerifyState truth (c.VerifyState truth stats)).totalBuddyRecords : ℚ) =
        ((c.VerifyState truth stats).totalCorrectBuddyRecords : ℚ) /
          ((c.VerifyState truth stats).totalBuddyRecords : ℚ)) := by
  have h1 : c.VerifyState truth stats =
      { stats with
        totalBuddyRecords := stats.totalBuddyRecords + c.buddyState.length,
        totalCorrectBuddyRecords :=
          stats.totalCorrectBuddyRecords +
            c.buddyState.countP (fun p => truth p.1 == p.2) } := by
    unfold Client.VerifyState
    exact verifyFold_spec truth c.buddyState stats
  have h2 : c.VerifyState truth (c.VerifyState truth stats) =
      { stats with
        totalBuddyRecords :=
          stats.totalBuddyRecords + 2 * c.buddyState.length,
        totalCorrectBuddyRecords :=
          stats.totalCorrectBuddyRecords +
            2 * c.buddyState.countP (fun p => truth p.1 == p.2) } := by
    rw [h1]
    unfold Client.VerifyState
    rw [verifyFold_spec]
    simp
    omega
  refine ⟨h1, h2, ?_⟩
  intro hz0 hz1
  rw [h2, h1]
  simp only [hz0, hz1, Nat.zero_add, zero_add]
  push_cast
  rw [mul_div_mul_left _ _ (two_ne_zero)]

/-- Witness for C9's conditional ratio conjunct at a concrete client and
fresh stats sink. -/
theorem verify_state_witness :
    ((cEx.VerifyState (fun _ => ClientState.ONLINE)
          (cEx.VerifyState (fun _ => ClientState.ONLINE)
            SimulatorStatistics.init)).totalCorrectBuddyRecords : ℚ) /
        ((cEx.VerifyState (fun _ => ClientState.ONLINE)
          (cEx.VerifyState (fun _ => ClientState.ONLINE)
            SimulatorStatistics.init)).totalBuddyRecords : ℚ) =
      ((cEx.VerifyState (fun _ => ClientState.ONLINE)
          SimulatorStatistics.init).totalCorrectBuddyRecords : ℚ) /
        ((cEx.VerifyState (fun _ => ClientState.ONLINE)
          SimulatorStatistics.init).totalBuddyRecords : ℚ) :=
  (verify_state_spec cEx (fun _ => ClientState.ONLINE)
    SimulatorStatistics.init).2.2 rfl rfl

/-! ## C1: cycle detection resets state pessimistically -/

theorem gossipNewCycleLoop_spec (senderId ts : Nat)
    (stats : SimulatorStatistics) (l : List (Nat × ClientState)) :
    gossipNewCycleLoop senderId ts stats l =
      (l.map (fun p => (p.1, ClientState.OFFLINE)),
       { stats with
         totalPresenceUpdates := stats.totalPresenceUpdates +
           l.countP (fun p => stats.lastState p.1 == ClientState.OFFLINE),
         totalConvergenceTime := stats.totalConvergenceTime +
           l.countP (fun p => stats.lastState p.1 == ClientState.OFFLINE) *
             sub32 ts (stats.stateSwitches senderId) }) := by
  induction l generalizing stats with
  | nil => simp [gossipNewCycleLoop]
  | cons p rest ih =>
      simp only [gossipNewCycleLoop]
      by_cases hp : stats.getLastState p.1 = ClientState.OFFLINE
      · rw [if_pos hp, ih]
        have hb : (stats.lastState p.1 == ClientState.OFFLINE) = true := by
          unfold SimulatorStatistics.getLastState at hp
          simp [hp]
        simp [SimulatorStatistics.incrementPresenceUpdates,
          SimulatorStatistics.addConvergenceTime,
          SimulatorStatistics.getLastStateSwitch,
          List.countP_cons, hb]
        constructor <;> ring
      · rw [if_neg hp, ih]
        have hb : (stats.lastState p.1 == ClientState.OFFLINE) = false := by
          unfold SimulatorStatistics.getLastState at hp
          simp [hp]
        simp [List.countP_cons, hb]

/-- Claim C1: for an online gossip node receiving a message whose gossipId
differs from `lastGossipRequest`, `handleMessage` starts a new cycle via
the cycle-detection block: `gossipedNodes` is cleared, `messagesSent`
reset to 0, `lastGossipRequest` set to the message's gossipId, every buddy
is believed `OFFLINE`, and for each buddy whose recorded ground truth is
`OFFLINE` one presence update is credited and
`timestamp - lastStateSwitch(sender)` added to the convergence time (the
stats sink is otherwise untouched). -/
theorem gossip_cycle_detection_spec (c : GossipClient)
    (stats : SimulatorStatistics) (msg : ClientMessage) (tape : List Nat)
    (hon : c.state = ClientState.ONLINE)
    (hdiff : c.lastGossipRequest ≠ msg.gossipId) :
    gossipHandleMessage c stats msg tape =
      gossipHandleRest (gossipNewCycle c stats msg).1
        (gossipNewCycle c stats msg).2 msg tape ∧
    (gossipNewCycle c stats msg).1.gossipedNodes = [] ∧
    (gossipNewCycle c stats msg).1.messagesSent = 0 ∧
    (gossipNewCycle c stats msg).1.lastGossipRequest = msg.gossipId ∧
    (gossipNewCycle c stats msg).1.buddyState =
      c.buddyState.map (fun p => (p.1, ClientState.OFFLINE)) ∧
    (gossipNewCycle c stats msg).2 =
      { stats with
        totalPresenceUpdates := stats.totalPresenceUpdates +
          c.buddyState.countP
            (fun p => stats.lastState p.1 == ClientState.OFFLINE),
        totalConvergenceTime := stats.totalConvergenceTime +
          c.buddyState.countP
            (fun p => stats.lastState p.1 == ClientState.OFFLINE) *
            sub32 msg.timestamp (stats.stateSwitches msg.senderId) } := by
  refine ⟨?_, ?_, ?_, ?_, ?_, ?_⟩
  · simp [gossipHandleMessage, hon, hdiff]
  all_goals
    simp [gossipNewCycle, gossipNewCycleLoop_spec]

/-- Witness for C1: applying the theorem at a concrete client, stats sink
and message credits exactly the one buddy whose ground truth is OFFLINE. -/
theorem gossip_cycle_detection_witness :
    gcEx.state = ClientState.ONLINE ∧
    gcEx.lastGossipRequest ≠ msgEx.gossipId ∧
    (gossipNewCycle gcEx stEx msgEx).2.totalPresenceUpdates = 1 :=
  ⟨rfl, by decide, by
    have h := (gossip_cycle_detection_spec gcEx stEx msgEx [] rfl
      (by decide)).2.2.2.2.2
    rw [h]
    decide⟩

/-! ## C4: the fan-out cap -/

theorem gossipHandleRest_fwd_messagesSent (c : GossipClient)
    (stats : SimulatorStatistics) (msg : ClientMessage) (tape : List Nat)
    (c' : GossipClient) (stats' : SimulatorStatistics)
    (msgs : List ClientMessage) (tp : List Nat)
    (h : gossipHandleRest c stats msg tape = some (c', stats', msgs, tp))
    (hm : msgs ≠ []) :
    c'.messagesSent = c.messagesSent + 1 ∧ c.messagesSent < 5 := by
  unfold gossipHandleRest at h
  split at h
  · simp only [Option.some.injEq, Prod.mk.injEq] at h
    exact absurd h.2.2.1.symm hm
  · rename_i hcap
    split at h
    · simp at h
    · split at h
      · simp at h
      · simp only [Option.some.injEq, Prod.mk.injEq] at h
        refine ⟨?_, by omega⟩
        rw [← h.1]

/-- Claim C4: if an online gossip node handles a message of the current
cycle while `messagesSent ≥ 5`, the message is dropped without forwarding
(nothing enqueued, client and stats unchanged); whenever `handleMessage`
does forward, the resulting `messagesSent` is at most 5; and origination
(`runTasks`) leaves `messagesSent = 2`. -/
theorem gossip_fanout_cap_spec (c : GossipClient)
    (stats : SimulatorStatistics) (msg : ClientMessage) (tape : List Nat) :
    (c.state = ClientState.ONLINE → msg.gossipId = c.lastGossipRequest →
      5 ≤ c.messagesSent →
      gossipHandleMessage c stats msg tape = some (c, stats, [], tape)) ∧
    (∀ c' stats' msgs tp,
      gossipHandleMessage c stats msg tape = some (c', stats', msgs, tp) →
      msgs ≠ [] → c'.messagesSent ≤ 5) ∧
    (∀ t c2 msgs2 tp2,
      gossipRunTasks c t tape = some (c2, msgs2, tp2) →
      c.state = ClientState.ONLINE → c2.messagesSent = 2) := by
  refine ⟨?_, ?_, ?_⟩
  · intro hon hsame hcap
    have hsame' : ¬ c.lastGossipRequest ≠ msg.gossipId := by simp [hsame]
    simp [gossipHandleMessage, hon, hsame', gossipHandleRest, hcap]
  · intro c' stats' msgs tp hres hm
    unfold gossipHandleMessage at hres
    by_cases hon : c.state = ClientState.ONLINE
    · rw [if_pos hon] at hres
      by_cases hdiff : c.lastGossipRequest ≠ msg.gossipId
      · rw [if_pos hdiff] at hres
        have h2 := gossipHandleRest_fwd_messagesSent _ _ _ _ _ _ _ _ hres hm
        omega
      · rw [if_neg hdiff] at hres
        have h2 := gossipHandleRest_fwd_messagesSent _ _ _ _ _ _ _ _ hres hm
        omega
    · rw [if_neg hon] at hres
      simp only [Option.some.injEq, Prod.mk.injEq] at hres
      exact absurd hres.2.2.1.symm hm
  · intro t c2 msgs2 tp2 hres hon
    unfold gossipRunTasks at hres
    rw [if_pos hon] at hres
    split at hres
    · simp at hres
    · split at hres
      · simp at hres
      · split at hres
        · simp at hres
        · split at hres
          · simp at hres
          · simp only [Option.some.injEq, Prod.mk.injEq] at hres
            rw [← hres.1]

/-- Witness for C4: a capped client in the current cycle drops the
message and is returned unchanged. -/
theorem gossip_fanout_cap_witness :
    gossipHandleMessage ({ gcEx with messagesSent := 5 }) stEx
        ({ msgEx with gossipId := 0 }) [] =
      some ({ gcEx with messagesSent := 5 }, stEx, [], []) :=
  (gossip_fanout_cap_spec ({ gcEx with messagesSent := 5 }) stEx
      ({ msgEx with gossipId := 0 }) []).1 rfl rfl (by decide)

/-! ## C2: chain absorption promotes every buddy -/

theorem gossipAbsorbLoop_spec (senderId ts : Nat)
    (stats : SimulatorStatistics) (l : List (Nat × ClientState)) :
    gossipAbsorbLoop senderId ts stats l =
      (l.map (fun p => (p.1, ClientState.ONLINE)),
       { stats with
         totalPresenceUpdates := stats.totalPresenceUpdates +
           l.countP (fun p => !(p.2 == ClientState.ONLINE) &&
             (stats.lastState p.1 == ClientState.ONLINE)),
         totalConvergenceTime := stats.totalConvergenceTime +
           l.countP (fun p => !(p.2 == ClientState.ONLINE) &&
             (stats.lastState p.1 == ClientState.ONLINE)) *
             sub32 ts (stats.stateSwitches senderId) }) := by
  induction l generalizing stats with
  | nil => simp [gossipAbsorbLoop]
  | cons p rest ih =>
      simp only [gossipAbsorbLoop]
      by_cases hp : p.2 ≠ ClientState.ONLINE ∧
          stats.getLastState p.1 = ClientState.ONLINE
      · rw [if_pos hp, ih]
        have hb : ((!(p.2 == ClientState.ONLINE)) &&
            (stats.lastState p.1 == ClientState.ONLINE)) = true := by
          have hp2 := hp.2
          unfold SimulatorStatistics.getLastState at hp2
          simp [hp.1, hp2]
        simp [SimulatorStatistics.incrementPresenceUpdates,
          SimulatorStatistics.addConvergenceTime,
          SimulatorStatistics.getLastStateSwitch,
          List.countP_cons, hb]
        constructor <;> ring
      · rw [if_neg hp, ih]
        have hb : ((!(p.2 == ClientState.ONLINE)) &&
            (stats.lastState p.1 == ClientState.ONLINE)) = false := by
          rcases not_and_or.mp hp with h1 | h1
          · have h2 : p.2 = ClientState.ONLINE := not_not.mp h1
            simp [h2]
          · unfold SimulatorStatistics.getLastState at h1
            simp [h1]
        simp [List.countP_cons, hb]

/-- Claim C2: when an online gossip node processes a message past the
fan-out cap check (i.e. `handleMessage` forwards), every id of the
incoming `clientChain` is inserted into `gossipedNodes` (and previously
gossiped ids are retained), one presence update is credited - with delta
`timestamp - lastStateSwitch(sender)` - for each buddy currently believed
not-`ONLINE` whose recorded ground truth is `ONLINE`, and afterwards every
entry of the `buddyState` map (not only the chain members) is `ONLINE`. -/
theorem gossip_chain_absorption_spec (c : GossipClient)
    (stats : SimulatorStatistics) (msg : ClientMessage) (tape : List Nat)
    (c' : GossipClient) (stats' : SimulatorStatistics)
    (msgs : List ClientMessage) (tp : List Nat)
    (hon : c.state = ClientState.ONLINE)
    (hres : gossipHandleRest c stats msg tape = some (c', stats', msgs, tp))
    (hfwd : msgs ≠ []) :
    (∀ i ∈ msg.clientChain, i ∈ c'.gossipedNodes) ∧
    (∀ i ∈ c.gossipedNodes, i ∈ c'.gossipedNodes) ∧
    stats'.totalPresenceUpdates = stats.totalPresenceUpdates +
      c.buddyState.countP (fun p => !(p.2 == ClientState.ONLINE) &&
        (stats.lastState p.1 == ClientState.ONLINE)) ∧
    stats'.totalConvergenceTime = stats.totalConvergenceTime +
      c.buddyState.countP (fun p => !(p.2 == ClientState.ONLINE) &&
        (stats.lastState p.1 == ClientState.ONLINE)) *
        sub32 msg.timestamp (stats.stateSwitches msg.senderId) ∧
    c'.buddyState = c.buddyState.map (fun p => (p.1, ClientState.ONLINE)) ∧
    (∀ p ∈ c'.buddyState, p.2 = ClientState.ONLINE) := by
  unfold gossipHandleRest at hres
  split at hres
  · simp only [Option.some.injEq, Prod.mk.injEq] at hres
    exact absurd hres.2.2.1.symm hfwd
  · split at hres
    · simp at hres
    · split at hres
      · simp at hres
      · simp only [Option.some.injEq, Prod.mk.injEq] at hres
        obtain ⟨hc, hst, hmsgs, htp⟩ := hres
        rw [gossipAbsorbLoop_spec] at hc hst
        refine ⟨?_, ?_, ?_, ?_, ?_, ?_⟩
        · intro i hi
          rw [← hc]
          exact mem_setInsertAll_of_mem_right _ _ _ hi
        · intro i hi
          rw [← hc]
          exact mem_setInsertAll_of_mem_left _ _ _ hi
        · rw [← hst]
        · rw [← hst]
        · rw [← hc]
        · intro p hp
          rw [← hc] at hp
          simp only [List.mem_map] at hp
          obtain ⟨q, -, hq⟩ := hp
          rw [← hq]

/-- Witness for C2 at a concrete forwarding call: the chain member 1 ends
up in the forwarding node's `gossipedNodes`. -/
theorem gossip_chain_absorption_witness :
    1 ∈ ((gossipHandleRest gcEx stEx msgEx [0]).getD
        (gcEx, stEx, [], [])).1.gossipedNodes :=
  (gossip_chain_absorption_spec gcEx stEx msgEx [0] _ _ _ _ rfl rfl
    (by decide)).1 1 (by decide)

/-! ## C3: origination sends two gossip messages to distinct observers -/

theorem gossipPickLoop_sound (obs : List Nat) (rl cid r : Nat)
    (tape : List Nat) (r' : Nat) (tp' : List Nat)
    (h : gossipPickLoop obs rl cid r tape = some (r', tp')) :
    obs.getD r' 0 ≠ cid ∧ (r' = r ∨ ∃ x, r' = x % rl) := by
  induction tape generalizing r with
  | nil =>
      unfold gossipPickLoop at h
      split at h
      · simp at h
      · rename_i hobs
        simp only [Option.some.injEq, Prod.mk.injEq] at h
        obtain ⟨h1, -⟩ := h
        subst h1
        exact ⟨hobs, Or.inl rfl⟩
  | cons x rest ih =>
      unfold gossipPickLoop at h
      split at h
      · obtain ⟨ha, hb⟩ := ih (x % rl) h
        refine ⟨ha, Or.inr ?_⟩
        rcases hb with he | hy
        · exact ⟨x, he⟩
        · exact hy
      · rename_i hobs
        simp only [Option.some.injEq, Prod.mk.injEq] at h
        obtain ⟨h1, -⟩ := h
        subst h1
        exact ⟨hobs, Or.inl rfl⟩

theorem gossipPickLoop_lt (obs : List Nat) (cid r : Nat) (tape : List Nat)
    (r' : Nat) (tp' : List Nat) (hlen : 0 < obs.length)
    (hr : r < obs.length)
    (h : gossipPickLoop obs obs.length cid r tape = some (r', tp')) :
    r' < obs.length := by
  obtain ⟨-, hb⟩ := gossipPickLoop_sound obs obs.length cid r tape r' tp' h
  rcases hb with he | ⟨x, hx⟩
  · omega
  · rw [hx]
    exact Nat.mod_lt x hlen

theorem gossipPick2Loop_sound (bud : List Nat) (cid r1 r2 : Nat)
    (tape : List Nat) (r' : Nat) (tp' : List Nat)
    (h : gossipPick2Loop bud cid r1 r2 tape = some (r', tp')) :
    bud.getD r' 0 ≠ cid ∧ r' ≠ r1 := by
  induction tape generalizing r2 with
  | nil =>
      unfold gossipPick2Loop at h
      split at h
      · simp at h
      · rename_i hcond
        push_neg at hcond
        simp only [Option.some.injEq, Prod.mk.injEq] at h
        obtain ⟨h1, -⟩ := h
        subst h1
        exact hcond
  | cons x rest ih =>
      unfold gossipPick2Loop at h
      split at h
      · exact ih (x % bud.length) h
      · rename_i hcond
        push_neg at hcond
        simp only [Option.some.injEq, Prod.mk.injEq] at h
        obtain ⟨h1, -⟩ := h
        subst h1
        exact hcond

/-- Claim C3: for an online gossip node, `runTasks` pre-charges
`messagesSent = 2`, clears `gossipedNodes`, sets `lastGossipRequest` to the
current timestamp and enqueues exactly two GOSSIP messages, each with
chain consisting of the node itself, gossipId and timestamp equal to the
current timestamp, addressed to two distinct observers of the node.  The
hypotheses record the successful random selections (and that the second
index - which the source may redraw modulo `buddies.size()` - landed
inside the observer list). -/
theorem gossip_origination_spec (c : GossipClient) (t : Nat)
    (x1 x2 : Nat) (tp2 tp3 tp4 : List Nat) (r1 r2 : Nat)
    (hon : c.state = ClientState.ONLINE)
    (hnd : c.observers.Nodup)
    (hlen : 0 < c.observers.length)
    (hp1 : gossipPickLoop c.observers c.observers.length c.clientId
      (x1 % c.observers.length) tp2 = some (r1, tp3))
    (hp2 : gossipPick2Loop c.buddies c.clientId r1
      (x2 % c.observers.length) tp3 = some (r2, tp4))
    (hr2 : r2 < c.observers.length) :
    gossipRunTasks c t (x1 :: x2 :: tp2) =
      some ({ c with messagesSent := 2, gossipedNodes := [],
                     lastGossipRequest := t },
            [Client.createMessage c.toClient (c.observers.getD r1 0)
               ClientMessageType.GOSSIP t t [c.clientId],
             Client.createMessage c.toClient (c.observers.getD r2 0)
               ClientMessageType.GOSSIP t t [c.clientId]],
            tp4) ∧
    c.observers.getD r1 0 ∈ c.observers ∧
    c.observers.getD r2 0 ∈ c.observers ∧
    c.observers.getD r1 0 ≠ c.observers.getD r2 0 := by
  have hr1 : r1 < c.observers.length :=
    gossipPickLoop_lt c.observers c.clientId (x1 % c.observers.length)
      tp2 r1 tp3 hlen (Nat.mod_lt x1 hlen) hp1
  have hs2 := gossipPick2Loop_sound c.buddies c.clientId r1
    (x2 % c.observers.length) tp3 r2 tp4 hp2
  refine ⟨?_, ?_, ?_, ?_⟩
  · unfold gossipRunTasks
    rw [if_pos hon]
    simp only [hp1, hp2]
  · rw [List.getD_eq_getElem c.observers 0 hr1]
    exact List.getElem_mem hr1
  · rw [List.getD_eq_getElem c.observers 0 hr2]
    exact List.getElem_mem hr2
  · rw [List.getD_eq_getElem c.observers 0 hr1,
      List.getD_eq_getElem c.observers 0 hr2]
    intro heq
    exact hs2.2 ((@List.Nodup.getElem_inj_iff _ _ hnd r1 hr1 r2 hr2).mp heq).symm

/-- Witness for C3 at a concrete client and tape: the two recipients are
the two distinct observers 2 and 1. -/
theorem gossip_origination_witness :
    gossipRunTasks gcEx 60 [1, 0] =
      some ({ gcEx with messagesSent := 2, gossipedNodes := [],
                        lastGossipRequest := 60 },
            [Client.createMessage gcEx.toClient 2 ClientMessageType.GOSSIP
               60 60 [0],
             Client.createMessage gcEx.toClient 1 ClientMessageType.GOSSIP
               60 60 [0]],
            []) :=
  (gossip_origination_spec gcEx 60 1 0 [] [] [] 1 0 rfl (by decide)
    (by decide) (by decide) (by decide) (by decide)).1

/-! ## Heartbeat staleness sweep lemmas -/

theorem hbDemote_congr (obsLen t : Nat) (c c1 : HeartbeatClient) (x : Nat)
    (h1 : alGetD ClientState.ONLINE c1.buddyState x =
      alGetD ClientState.ONLINE c.buddyState x)
    (h2 : c1.lastBuddyUpdate = c.lastBuddyUpdate) :
    hbDemote obsLen t c1 x = hbDemote obsLen t c x := by
  unfold hbDemote
  rw [h1, h2]

theorem hbSweepStep_spec (t obsLen : Nat) (c : HeartbeatClient)
    (stats : SimulatorStatistics) (b : Nat) :
    (hbSweepStep t obsLen (c, stats) b).1.clientId = c.clientId ∧
    (hbSweepStep t obsLen (c, stats) b).1.state = c.state ∧
    (hbSweepStep t obsLen (c, stats) b).1.buddies = c.buddies ∧
    (hbSweepStep t obsLen (c, stats) b).1.observers = c.observers ∧
    (hbSweepStep t obsLen (c, stats) b).1.nextObserver = c.nextObserver ∧
    (hbSweepStep t obsLen (c, stats) b).1.lastMessageTimestamp =
      c.lastMessageTimestamp ∧
    (hbSweepStep t obsLen (c, stats) b).1.lastBuddyUpdate =
      c.lastBuddyUpdate ∧
    (∀ x, x ≠ b →
      alGetD ClientState.ONLINE
          (hbSweepStep t obsLen (c, stats) b).1.buddyState x =
        alGetD ClientState.ONLINE c.buddyState x) ∧
    (alGetD ClientState.ONLINE
        (hbSweepStep t obsLen (c, stats) b).1.buddyState b =
      (if hbDemote obsLen t c b then ClientState.OFFLINE
       else alGetD ClientState.ONLINE c.buddyState b)) ∧
    (hbSweepStep t obsLen (c, stats) b).2 =
      { stats with
        totalPresenceUpdates := stats.totalPresenceUpdates +
          (if hbDemote obsLen t c b then 1 else 0),
        totalConvergenceTime := stats.totalConvergenceTime +
          (if hbDemote obsLen t c b then sub32 t (stats.stateSwitches b)
           else 0) } := by
  by_cases hoff : alGetD ClientState.ONLINE c.buddyState b = ClientState.OFFLINE
  · have hdem : hbDemote obsLen t c b = false := by
      unfold hbDemote
      simp [hoff]
    simp only [hbSweepStep, alReadD_fst, if_pos hoff, hdem]
    refine ⟨trivial, trivial, trivial, trivial, trivial, trivial, trivial, ?_, ?_, ?_⟩
    · intro x _
      exact alGetD_alReadD ClientState.ONLINE c.buddyState b x
    · simp [alGetD_alReadD ClientState.ONLINE c.buddyState b b]
    · simp
  · by_cases hstale :
        obsLen * 12 * 3 < sub32 t (alGetD 0 c.lastBuddyUpdate b)
    · have hdem : hbDemote obsLen t c b = true := by
        unfold hbDemote
        simp [hoff, hstale]
      simp only [hbSweepStep, alReadD_fst, if_neg hoff, if_pos hstale, hdem]
      refine ⟨trivial, trivial, trivial, trivial, trivial, trivial, trivial, ?_, ?_, ?_⟩
      · intro x hx
        rw [alGetD_alSet, if_neg hx]
        exact alGetD_alReadD ClientState.ONLINE c.buddyState b x
      · simp [alGetD_alSet]
      · simp [SimulatorStatistics.incrementPresenceUpdates,
          SimulatorStatistics.addConvergenceTime,
          SimulatorStatistics.getLastStateSwitch]
    · have hdem : hbDemote obsLen t c b = false := by
        unfold hbDemote
        simp [hoff, hstale]
      simp only [hbSweepStep, alReadD_fst, if_neg hoff, if_neg hstale, hdem]
      refine ⟨trivial, trivial, trivial, trivial, trivial, trivial, trivial, ?_, ?_, ?_⟩
      · intro x _
        exact alGetD_alReadD ClientState.ONLINE c.buddyState b x
      · simp [alGetD_alReadD ClientState.ONLINE c.buddyState b b, hoff]
      · simp

theorem hbSweepFold_spec (t obsLen : Nat) (l : List Nat)
    (c : HeartbeatClient) (stats : SimulatorStatistics) (hnd : l.Nodup) :
    (l.foldl (hbSweepStep t obsLen) (c, stats)).1.clientId = c.clientId ∧
    (l.foldl (hbSweepStep t obsLen) (c, stats)).1.state = c.state ∧
    (l.foldl (hbSweepStep t obsLen) (c, stats)).1.buddies = c.buddies ∧
    (l.foldl (hbSweepStep t obsLen) (c, stats)).1.observers = c.observers ∧
    (l.foldl (hbSweepStep t obsLen) (c, stats)).1.nextObserver =
      c.nextObserver ∧
    (l.foldl (hbSweepStep t obsLen) (c, stats)).1.lastMessageTimestamp =
      c.lastMessageTimestamp ∧
    (l.foldl (hbSweepStep t obsLen) (c, stats)).1.lastBuddyUpdate =
      c.lastBuddyUpdate ∧
    (∀ x, x ∉ l →
      alGetD ClientState.ONLINE
          (l.foldl (hbSweepStep t obsLen) (c, stats)).1.buddyState x =
        alGetD ClientState.ONLINE c.buddyState x) ∧
    (∀ x ∈ l,
      alGetD ClientState.ONLINE
          (l.foldl (hbSweepStep t obsLen) (c, stats)).1.buddyState x =
        (if hbDemote obsLen t c x then ClientState.OFFLINE
         else alGetD ClientState.ONLINE c.buddyState x)) ∧
    (l.foldl (hbSweepStep t obsLen) (c, stats)).2 =
      { stats with
        totalPresenceUpdates := stats.totalPresenceUpdates +
          l.countP (fun x => hbDemote obsLen t c x),
        totalConvergenceTime := stats.totalConvergenceTime +
          ((l.filter (fun x => hbDemote obsLen t c x)).map
            (fun x => sub32 t (stats.stateSwitches x))).sum } := by
  induction l generalizing c stats with
  | nil =>
      refine ⟨rfl, rfl, rfl, rfl, rfl, rfl, rfl, ?_, ?_, ?_⟩
      · intro x _
        rfl
      · intro x hx
        simp at hx
      · simp
  | cons b l2 ih =>
      obtain ⟨hb_notin, hndl⟩ := List.nodup_cons.mp hnd
      obtain ⟨s1, s2, s3, s4, s5, s6, s7, s8, s9, s10⟩ :=
        hbSweepStep_spec t obsLen c stats b
      obtain ⟨i1, i2, i3, i4, i5, i6, i7, i8, i9, i10⟩ :=
        ih (hbSweepStep t obsLen (c, stats) b).1
          (hbSweepStep t obsLen (c, stats) b).2 hndl
      simp only [List.foldl_cons]
      refine ⟨i1.trans s1, i2.trans s2, i3.trans s3, i4.trans s4,
        i5.trans s5, i6.trans s6, i7.trans s7, ?_, ?_, ?_⟩
      · intro x hx
        have hx1 : x ∉ l2 := fun h => hx (List.mem_cons_of_mem _ h)
        have hx2 : x ≠ b := fun h => hx (h ▸ List.mem_cons_self b l2)
        exact (i8 x hx1).trans (s8 x hx2)
      · intro x hx
        rcases List.mem_cons.mp hx with hxb | hxl
        · subst hxb
          exact (i8 x hb_notin).trans s9
        · have hxb : x ≠ b := fun h => hb_notin (h ▸ hxl)
          have hlook := i9 x hxl
          rw [s8 x hxb, hbDemote_congr obsLen t c _ x (s8 x hxb) s7]
            at hlook
          exact hlook
      · have hcong : ∀ x ∈ l2,
            hbDemote obsLen t (hbSweepStep t obsLen (c, stats) b).1 x =
              hbDemote obsLen t c x := by
          intro x hxl
          have hxb : x ≠ b := fun h => hb_notin (h ▸ hxl)
          exact hbDemote_congr obsLen t c _ x (s8 x hxb) s7
        have hcnt : l2.countP
              (fun x => hbDemote obsLen t (hbSweepStep t obsLen (c, stats) b).1 x) =
            l2.countP (fun x => hbDemote obsLen t c x) := by
          apply List.countP_congr
          intro x hxl
          rw [hcong x hxl]
        have hfil : l2.filter
              (fun x => hbDemote obsLen t (hbSweepStep t obsLen (c, stats) b).1 x) =
            l2.filter (fun x => hbDemote obsLen t c x) :=
          List.filter_congr (fun x hxl => hcong x hxl)
        rw [i10, s10, hcnt, hfil]
        by_cases hdb : hbDemote obsLen t c b <;>
          simp [hdb, List.countP_cons, List.filter_cons] <;>
          omega

theorem hbEmit_fields (c : HeartbeatClient) (t : Nat) :
    (hbEmit c t).1.clientId = c.clientId ∧
    (hbEmit c t).1.state = c.state ∧
    (hbEmit c t).1.buddies = c.buddies ∧
    (hbEmit c t).1.observers = c.observers ∧
    (hbEmit c t).1.buddyState = c.buddyState ∧
    (hbEmit c t).1.lastBuddyUpdate = c.lastBuddyUpdate := by
  unfold hbEmit
  split <;> exact ⟨rfl, rfl, rfl, rfl, rfl, rfl⟩

/-! ## C5: heartbeat staleness sweep -/

/-- Claim C5: for an online heartbeat node, `runTasks` sweeps every buddy
currently believed `ONLINE` (the believed state of a buddy missing from
the map reads as `ONLINE`) and demotes it to `OFFLINE` iff
`timestamp - lastBuddyUpdate[b]` (missing update treated as 0) exceeds
`observers * 12 * 3`, crediting one presence update and adding
`timestamp - lastStateSwitch(b)` to the convergence time per demotion;
buddies already believed `OFFLINE` are unchanged, and the stats sink is
otherwise untouched. -/
theorem heartbeat_staleness_spec (c : HeartbeatClient)
    (stats : SimulatorStatistics) (t : Nat)
    (hon : c.state = ClientState.ONLINE) (hnd : c.buddies.Nodup) :
    (∀ b ∈ c.buddies,
      alGetD ClientState.ONLINE (hbRunTasks c stats t).1.buddyState b =
        (if hbDemote c.observers.length t c b then ClientState.OFFLINE
         else alGetD ClientState.ONLINE c.buddyState b)) ∧
    (∀ b, hbDemote c.observers.length t c b = true ↔
      (alGetD ClientState.ONLINE c.buddyState b ≠ ClientState.OFFLINE ∧
       c.observers.length * 12 * 3 <
         sub32 t (alGetD 0 c.lastBuddyUpdate b))) ∧
    (hbRunTasks c stats t).2.1 =
      { stats with
        totalPresenceUpdates := stats.totalPresenceUpdates +
          c.buddies.countP (fun x => hbDemote c.observers.length t c x),
        totalConvergenceTime := stats.totalConvergenceTime +
          ((c.buddies.filter
              (fun x => hbDemote c.observers.length t c x)).map
            (fun x => sub32 t (stats.stateSwitches x))).sum } := by
  obtain ⟨e1, e2, e3, e4, e5, e6⟩ := hbEmit_fields c t
  have hnd2 : (hbEmit c t).1.buddies.Nodup := by rw [e3]; exact hnd
  obtain ⟨f1, f2, f3, f4, f5, f6, f7, f8, f9, f10⟩ :=
    hbSweepFold_spec t ((hbEmit c t).1.observers.length)
      ((hbEmit c t).1.buddies) (hbEmit c t).1 stats hnd2
  have hdemc : ∀ x,
      hbDemote ((hbEmit c t).1.observers.length) t (hbEmit c t).1 x =
        hbDemote c.observers.length t c x := by
    intro x
    rw [e4]
    exact hbDemote_congr c.observers.length t c (hbEmit c t).1 x
      (by rw [e5]) e6
  have hrun1 : (hbRunTasks c stats t).1 =
      ((hbEmit c t).1.buddies.foldl
        (hbSweepStep t ((hbEmit c t).1.observers.length))
        ((hbEmit c t).1, stats)).1 := by
    unfold hbRunTasks
    rw [if_pos hon]
  have hrun2 : (hbRunTasks c stats t).2.1 =
      ((hbEmit c t).1.buddies.foldl
        (hbSweepStep t ((hbEmit c t).1.observers.length))
        ((hbEmit c t).1, stats)).2 := by
    unfold hbRunTasks
    rw [if_pos hon]
  refine ⟨?_, ?_, ?_⟩
  · intro b hb
    have hb2 : b ∈ (hbEmit c t).1.buddies := by rw [e3]; exact hb
    have hlook := f9 b hb2
    rw [hdemc b, e5] at hlook
    rw [hrun1, hlook]
  · intro b
    unfold hbDemote
    constructor
    · intro h
      simp only [Bool.and_eq_true, Bool.not_eq_true', beq_eq_false_iff_ne,
        decide_eq_true_eq] at h
      exact h
    · intro h
      simp only [Bool.and_eq_true, Bool.not_eq_true', beq_eq_false_iff_ne,
        decide_eq_true_eq]
      exact h
  · have hcnt : ((hbEmit c t).1.buddies).countP
        (fun x => hbDemote ((hbEmit c t).1.observers.length) t
          (hbEmit c t).1 x) =
        c.buddies.countP (fun x => hbDemote c.observers.length t c x) := by
      rw [e3]
      apply List.countP_congr
      intro x _
      rw [hdemc x]
    have hfil : ((hbEmit c t).1.buddies).filter
        (fun x => hbDemote ((hbEmit c t).1.observers.length) t
          (hbEmit c t).1 x) =
        c.buddies.filter (fun x => hbDemote c.observers.length t c x) := by
      rw [e3]
      exact List.filter_congr (fun x _ => hdemc x)
    rw [hrun2, f10, hcnt, hfil]

/-- A small concrete heartbeat client used by witnesses: online, with
buddies 1 and 2, buddy 1 believed ONLINE but long stale, buddy 2 believed
OFFLINE. -/
def hbEx : HeartbeatClient :=
  { toClient := { cEx with
      buddyState := [(1, ClientState.ONLINE), (2, ClientState.OFFLINE)] },
    nextObserver := 0, lastMessageTimestamp := 295,
    lastBuddyUpdate := [(1, 10)] }

/-- Witness for C5: at a concrete online heartbeat node whose buddy 1 is
believed ONLINE and stale, the sweep demotes it and credits one update. -/
theorem heartbeat_staleness_witness :
    hbEx.state = ClientState.ONLINE ∧
    (hbRunTasks hbEx SimulatorStatistics.init 300).2.1.totalPresenceUpdates
      = 1 := by
  refine ⟨rfl, ?_⟩
  have h := (heartbeat_staleness_spec hbEx SimulatorStatistics.init 300 rfl
    (by decide)).2.2
  rw [h]
  decide

/-! ## C6: heartbeat emission gate and separation -/

/-- Claim C6: for an online heartbeat node, `runTasks` enqueues a
HEARTBEAT message iff `timestamp - lastMessageTimestamp > 11` (wrapped
uint32 arithmetic); the message goes to `observers[nextObserver]` with an
empty chain and gossipId 0, `lastMessageTimestamp` is set to the
timestamp, and `nextObserver` advances by one wrapping to 0 at
`observers.length`; with no emission those fields are unchanged.
Consequently, under a driver with non-decreasing sub-`2^32` timestamps,
two consecutive emissions are at least 12 simulated seconds apart. -/
theorem heartbeat_emission_spec (c : HeartbeatClient)
    (stats : SimulatorStatistics) (t : Nat)
    (hon : c.state = ClientState.ONLINE) (hnd : c.buddies.Nodup) :
    ((hbRunTasks c stats t).2.2 ≠ [] ↔
      11 < sub32 t c.lastMessageTimestamp) ∧
    (11 < sub32 t c.lastMessageTimestamp →
      (hbRunTasks c stats t).2.2 =
        [Client.createMessage c.toClient (c.observers.getD c.nextObserver 0)
           ClientMessageType.HEARTBEAT t 0 []] ∧
      (hbRunTasks c stats t).1.lastMessageTimestamp = t ∧
      (hbRunTasks c stats t).1.nextObserver =
        (if c.observers.length ≤ c.nextObserver + 1 then 0
         else c.nextObserver + 1)) ∧
    (¬ 11 < sub32 t c.lastMessageTimestamp →
      (hbRunTasks c stats t).2.2 = [] ∧
      (hbRunTasks c stats t).1.lastMessageTimestamp =
        c.lastMessageTimestamp ∧
      (hbRunTasks c stats t).1.nextObserver = c.nextObserver) ∧
    (∀ t1, c.lastMessageTimestamp = t1 → t1 ≤ t → t < 2 ^ 32 →
      (hbRunTasks c stats t).2.2 ≠ [] → t1 + 12 ≤ t) := by
  obtain ⟨e1, e2, e3, e4, e5, e6⟩ := hbEmit_fields c t
  have hnd2 : (hbEmit c t).1.buddies.Nodup := by rw [e3]; exact hnd
  obtain ⟨f1, f2, f3, f4, f5, f6, f7, f8, f9, f10⟩ :=
    hbSweepFold_spec t ((hbEmit c t).1.observers.length)
      ((hbEmit c t).1.buddies) (hbEmit c t).1 stats hnd2
  have hrun1 : (hbRunTasks c stats t).1 =
      ((hbEmit c t).1.buddies.foldl
        (hbSweepStep t ((hbEmit c t).1.observers.length))
        ((hbEmit c t).1, stats)).1 := by
    unfold hbRunTasks
    rw [if_pos hon]
  have hrun3 : (hbRunTasks c stats t).2.2 = (hbEmit c t).2 := by
    unfold hbRunTasks
    rw [if_pos hon]
  have hnext : (hbRunTasks c stats t).1.nextObserver =
      (hbEmit c t).1.nextObserver := by rw [hrun1]; exact f5
  have hlast : (hbRunTasks c stats t).1.lastMessageTimestamp =
      (hbEmit c t).1.lastMessageTimestamp := by rw [hrun1]; exact f6
  have hemT : 11 < sub32 t c.lastMessageTimestamp →
      hbEmit c t =
        ({ c with lastMessageTimestamp := t,
                  nextObserver :=
                    if c.observers.length ≤ c.nextObserver + 1 then 0
                    else c.nextObserver + 1 },
         [Client.createMessage c.toClient
            (c.observers.getD c.nextObserver 0)
            ClientMessageType.HEARTBEAT t 0 []]) := by
    intro h
    unfold hbEmit
    rw [if_pos h]
  have hemF : ¬ 11 < sub32 t c.lastMessageTimestamp →
      hbEmit c t = (c, []) := by
    intro h
    unfold hbEmit
    rw [if_neg h]
  have hiff : (hbRunTasks c stats t).2.2 ≠ [] ↔
      11 < sub32 t c.lastMessageTimestamp := by
    constructor
    · intro hne
      by_contra hlt
      rw [hrun3, hemF hlt] at hne
      exact hne rfl
    · intro hlt
      rw [hrun3, hemT hlt]
      simp
  refine ⟨hiff, ?_, ?_, ?_⟩
  · intro hlt
    refine ⟨?_, ?_, ?_⟩
    · rw [hrun3, hemT hlt]
    · rw [hlast, hemT hlt]
    · rw [hnext, hemT hlt]
  · intro hlt
    refine ⟨?_, ?_, ?_⟩
    · rw [hrun3, hemF hlt]
    · rw [hlast, hemF hlt]
    · rw [hnext, hemF hlt]
  · intro t1 ht1 hle hlt2 hne
    have hcond := hiff.mp hne
    rw [ht1] at hcond
    rw [sub32_eq_of_le t t1 hle hlt2] at hcond
    omega

/-- Witness for C6: at a concrete heartbeat node the emitted message and
cursor advance are as stated. -/
theorem heartbeat_emission_witness :
    hbEx.state = ClientState.ONLINE ∧
    11 < sub32 320 hbEx.lastMessageTimestamp ∧
    (hbRunTasks hbEx SimulatorStatistics.init 320).2.2 =
      [Client.createMessage hbEx.toClient 1 ClientMessageType.HEARTBEAT
        320 0 []] ∧
    (hbRunTasks hbEx SimulatorStatistics.init 320).1.nextObserver = 1 := by
  have h := (heartbeat_emission_spec hbEx SimulatorStatistics.init 320 rfl
    (by decide)).2.1 (by decide)
  refine ⟨rfl, by decide, ?_, ?_⟩
  · rw [h.1]
    decide
  · rw [h.2.2]
    decide

/-! ## C8: the dispatch loop drains the queue in FIFO order -/

theorem gossipHandleRest_msgStats (c : GossipClient)
    (stats : SimulatorStatistics) (msg : ClientMessage) (tape : List Nat)
    (c' : GossipClient) (stats' : SimulatorStatistics)
    (msgs : List ClientMessage) (tp : List Nat)
    (h : gossipHandleRest c stats msg tape = some (c', stats', msgs, tp)) :
    stats'.totalMessagesSent = stats.totalMessagesSent ∧
    stats'.totalDroppedMessages = stats.totalDroppedMessages := by
  unfold gossipHandleRest at h
  split at h
  · simp only [Option.some.injEq, Prod.mk.injEq] at h
    rw [← h.2.1]
    exact ⟨rfl, rfl⟩
  · split at h
    · simp at h
    · split at h
      · simp at h
      · simp only [Option.some.injEq, Prod.mk.injEq] at h
        obtain ⟨-, hst, -, -⟩ := h
        rw [← hst, gossipAbsorbLoop_spec]
        exact ⟨rfl, rfl⟩

theorem gossipHandleMessage_msgStats (c : GossipClient)
    (stats : SimulatorStatistics) (msg : ClientMessage) (tape : List Nat)
    (c' : GossipClient) (stats' : SimulatorStatistics)
    (msgs : List ClientMessage) (tp : List Nat)
    (h : gossipHandleMessage c stats msg tape = some (c', stats', msgs, tp)) :
    stats'.totalMessagesSent = stats.totalMessagesSent ∧
    stats'.totalDroppedMessages = stats.totalDroppedMessages := by
  unfold gossipHandleMessage at h
  by_cases hon : c.state = ClientState.ONLINE
  · rw [if_pos hon] at h
    by_cases hdiff : c.lastGossipRequest ≠ msg.gossipId
    · rw [if_pos hdiff] at h
      have h2 := gossipHandleRest_msgStats _ _ _ _ _ _ _ _ h
      have h3 : (gossipNewCycle c stats msg).2.totalMessagesSent =
          stats.totalMessagesSent ∧
          (gossipNewCycle c stats msg).2.totalDroppedMessages =
            stats.totalDroppedMessages := by
        unfold gossipNewCycle
        rw [gossipNewCycleLoop_spec]
        exact ⟨rfl, rfl⟩
      exact ⟨h2.1.trans h3.1, h2.2.trans h3.2⟩
    · rw [if_neg hdiff] at h
      exact gossipHandleRest_msgStats _ _ _ _ _ _ _ _ h
  · rw [if_neg hon] at h
    simp only [Option.some.injEq, Prod.mk.injEq] at h
    rw [← h.2.1]
    exact ⟨rfl, rfl⟩

theorem drainLoop_post (fuel : Nat) :
    ∀ (s : SimState) (tape : List Nat) (s' : SimState)
      (tr : List (ClientMessage × Bool)),
      drainLoop fuel s tape = some (s', tr) →
      s'.messageQueue = [] ∧
      s'.stats.totalMessagesSent = s.stats.totalMessagesSent + tr.length ∧
      s'.stats.totalDroppedMessages =
        s.stats.totalDroppedMessages + tr.countP (fun e => e.2) := by
  induction fuel with
  | zero =>
      intro s tape s' tr h
      unfold drainLoop at h
      split at h
      · rename_i hq
        simp only [Option.some.injEq, Prod.mk.injEq] at h
        obtain ⟨h1, h2⟩ := h
        subst h1
        subst h2
        exact ⟨hq, by simp, by simp⟩
      · simp at h
  | succ fuel ih =>
      intro s tape s' tr h
      unfold drainLoop at h
      split at h
      · rename_i hq
        simp only [Option.some.injEq, Prod.mk.injEq] at h
        obtain ⟨h1, h2⟩ := h
        subst h1
        subst h2
        exact ⟨hq, by simp, by simp⟩
      · rename_i m rest hq
        split at h
        · simp at h
        · rename_i x tp
          split at h
          · cases h2 : drainLoop fuel
                { s with
                  stats := (s.stats.incrementMessagesSent).incrementMessagesDropped,
                  messageQueue := rest } tp with
            | none => rw [h2] at h; simp at h
            | some r =>
                obtain ⟨s2, tr2⟩ := r
                rw [h2] at h
                simp only [Option.some.injEq, Prod.mk.injEq] at h
                obtain ⟨h3, h4⟩ := h
                obtain ⟨g1, g2, g3⟩ := ih _ _ _ _ h2
                subst h3
                rw [← h4]
                refine ⟨g1, ?_, ?_⟩
                · rw [g2]
                  simp [SimulatorStatistics.incrementMessagesSent,
                    SimulatorStatistics.incrementMessagesDropped]
                  omega
                · rw [g3]
                  simp [SimulatorStatistics.incrementMessagesSent,
                    SimulatorStatistics.incrementMessagesDropped,
                    List.countP_cons]
                  omega
          · split at h
            · simp at h
            · rename_i c1 stats2 out tp1 hh
              split at h
              · simp at h
              · rename_i s2 tr2 h2
                simp only [Option.some.injEq, Prod.mk.injEq] at h
                obtain ⟨h3, h4⟩ := h
                obtain ⟨g1, g2, g3⟩ := ih _ _ _ _ h2
                obtain ⟨m1, m2⟩ := gossipHandleMessage_msgStats _ _ _ _
                  _ _ _ _ hh
                subst h3
                rw [← h4]
                refine ⟨g1, ?_, ?_⟩
                · rw [g2, m1]
                  simp [SimulatorStatistics.incrementMessagesSent]
                  omega
                · rw [g3, m2]
                  simp [SimulatorStatistics.incrementMessagesSent,
                    List.countP_cons]

/-- Claim C8: `dispatchPendingMessages` pops messages from the front of
the FIFO queue until it is empty; for each popped message the sent
counter is incremented; when the drop draw is below 5 of 100 the message
is discarded and the drop counter incremented, otherwise it is delivered
to `clients[recipient]` via `handleMessage`, whose newly enqueued
messages join the back of the queue and are drained in the same pass; on
successful return the queue is empty and the counters account for every
popped and dropped message. -/
theorem drain_queue_spec (fuel : Nat) (s : SimState) (tape : List Nat) :
    (s.messageQueue = [] → drainLoop (fuel + 1) s tape = some (s, [])) ∧
    (∀ m rest x tp, s.messageQueue = m :: rest → x % 100 < 5 →
      drainLoop (fuel + 1) s (x :: tp) =
        (drainLoop fuel
            { s with
              stats := (s.stats.incrementMessagesSent).incrementMessagesDropped,
              messageQueue := rest } tp).map
          (fun r => (r.1, (m, true) :: r.2))) ∧
    (∀ m rest x tp c1 stats2 out tp1, s.messageQueue = m :: rest →
      ¬ x % 100 < 5 →
      gossipHandleMessage (s.clients m.recipientId)
        (s.stats.incrementMessagesSent) m tp = some (c1, stats2, out, tp1) →
      drainLoop (fuel + 1) s (x :: tp) =
        (drainLoop fuel
            { s with clients := Function.update s.clients m.recipientId c1,
                     stats := stats2,
                     messageQueue := rest ++ out } tp1).map
          (fun r => (r.1, (m, false) :: r.2))) ∧
    (∀ s' tr, drainLoop fuel s tape = some (s', tr) →
      s'.messageQueue = [] ∧
      s'.stats.totalMessagesSent = s.stats.totalMessagesSent + tr.length ∧
      s'.stats.totalDroppedMessages =
        s.stats.totalDroppedMessages + tr.countP (fun e => e.2)) ∧
    (∀ s', dispatchPendingMessages fuel s tape = some s' →
      s'.messageQueue = []) := by
  refine ⟨?_, ?_, ?_, ?_, ?_⟩
  · intro hq
    simp only [drainLoop, hq]
  · intro m rest x tp hq hdrop
    simp only [drainLoop, hq]
    rw [if_pos hdrop]
    set s1 : SimState :=
      { s with
        stats := (s.stats.incrementMessagesSent).incrementMessagesDropped,
        messageQueue := rest } with hs1
    cases h2 : drainLoop fuel s1 tp with
    | none => rfl
    | some r =>
        obtain ⟨a, b⟩ := r
        rfl
  · intro m rest x tp c1 stats2 out tp1 hq hdrop hh
    simp only [drainLoop, hq]
    rw [if_neg hdrop]
    simp only [hh]
    set s1 : SimState :=
      { s with
        clients := Function.update s.clients m.recipientId c1,
        stats := stats2,
        messageQueue := rest ++ out } with hs1
    cases h2 : drainLoop fuel s1 tp1 with
    | none => rfl
    | some r =>
        obtain ⟨a, b⟩ := r
        rfl
  · intro s' tr h
    exact drainLoop_post fuel s tape s' tr h
  · intro s' h
    unfold dispatchPendingMessages at h
    cases hd : drainLoop fuel s tape with
    | none => rw [hd] at h; simp at h
    | some r =>
        rw [hd] at h
        simp only [Option.map_some', Option.some.injEq] at h
        obtain ⟨g1, -, -⟩ := drainLoop_post fuel s tape r.1 r.2
          (by rw [hd])
        rw [← h]
        exact g1

/-- A small concrete simulator state used by witnesses: three clients,
client 0 online with the concrete gossip client, one queued message. -/
def sEx : SimState :=
  { numClients := 3, clients := fun _ => gcEx,
    onlineClients := {0}, offlineClients := {1, 2},
    messageQueue := [msgEx], stats := SimulatorStatistics.init,
    clientState := fun _ => ClientState.ONLINE,
    sleepSchedule := fun _ => ∅ }

/-- Witness for C8: draining the one-message queue (the draw 0 drops it)
empties the queue and counts one sent and one dropped message. -/
theorem drain_queue_witness :
    ((drainLoop 1 sEx [0]).getD (sEx, [])).1.messageQueue = [] ∧
    ((drainLoop 1 sEx [0]).getD (sEx, [])).1.stats.totalMessagesSent =
      sEx.stats.totalMessagesSent + 1 ∧
    ((drainLoop 1 sEx [0]).getD (sEx, [])).1.stats.totalDroppedMessages =
      sEx.stats.totalDroppedMessages + 1 :=
  (drain_queue_spec 1 sEx [0]).2.2.2.1 _ _ rfl

/-! ## C7: simulator state invariant -/

/-- The global invariant of the simulator state (spec section 3):
online/offline sets are disjoint, their union is the id range, membership
in the online set matches the client's own state, and the canonical state
table mirrors the clients. -/
def SimInv (s : SimState) : Prop :=
  s.onlineClients ∩ s.offlineClients = ∅ ∧
  s.onlineClients ∪ s.offlineClients = Finset.range s.numClients ∧
  (∀ i, i < s.numClients →
    (i ∈ s.onlineClients ↔ (s.clients i).state = ClientState.ONLINE)) ∧
  (∀ i, i < s.numClients → s.clientState i = (s.clients i).state)

/-- Well-formedness: the invariant plus id coherence of the client array
(`clients_[i]->getClientId() = i`, established by construction). -/
def SimWF (s : SimState) : Prop :=
  SimInv s ∧ ∀ i, i < s.numClients → (s.clients i).clientId = i

/-- The invariant restricted to the first `i` constructed clients. -/
def InitSeg (i : Nat) (s : SimState) : Prop :=
  s.onlineClients ∩ s.offlineClients = ∅ ∧
  s.onlineClients ∪ s.offlineClients = Finset.range i ∧
  (∀ j, j < i →
    (j ∈ s.onlineClients ↔ (s.clients j).state = ClientState.ONLINE)) ∧
  (∀ j, j < i → s.clientState j = (s.clients j).state) ∧
  (∀ j, j < i → (s.clients j).clientId = j)

theorem initClientsLoop_inv (bc nc : Nat) (draws : List (Nat × Nat)) :
    ∀ (i : Nat) (s : SimState), InitSeg i s →
      InitSeg (i + draws.length) (initClientsLoop bc nc i draws s) ∧
      (initClientsLoop bc nc i draws s).numClients = s.numClients := by
  induction draws with
  | nil =>
      intro i s h
      exact ⟨by simpa using h, rfl⟩
  | cons d rest ih =>
      obtain ⟨d1, d2⟩ := d
      intro i s h
      obtain ⟨h1, h2, h3, h4, h5⟩ := h
      have hion : i ∉ s.onlineClients := by
        intro hmem
        have : i ∈ Finset.range i := h2 ▸ Finset.mem_union_left _ hmem
        simp at this
      have hioff : i ∉ s.offlineClients := by
        intro hmem
        have : i ∈ Finset.range i := h2 ▸ Finset.mem_union_right _ hmem
        simp at this
      simp only [initClientsLoop, List.length_cons]
      set st := generateRandomState d2 with hst
      set c := GossipClient.init i bc nc (d1 % 4000) st with hc
      set s1 : SimState :=
        { s with
          clients := Function.update s.clients i c,
          sleepSchedule := Function.update s.sleepSchedule (d1 % 4000)
            (insert i (s.sleepSchedule (d1 % 4000))),
          stats := s.stats.addStateSwitch i 0 st,
          clientState := Function.update s.clientState i st,
          onlineClients :=
            if st = ClientState.ONLINE then insert i s.onlineClients
            else s.onlineClients,
          offlineClients :=
            if st = ClientState.ONLINE then s.offlineClients
            else insert i s.offlineClients } with hs1
      have hstep : InitSeg (i + 1) s1 := by
        refine ⟨?_, ?_, ?_, ?_, ?_⟩
        · show (if st = ClientState.ONLINE then insert i s.onlineClients
              else s.onlineClients) ∩
            (if st = ClientState.ONLINE then s.offlineClients
              else insert i s.offlineClients) = ∅
          by_cases hon : st = ClientState.ONLINE
          · rw [if_pos hon, if_pos hon,
              Finset.insert_inter_of_not_mem hioff, h1]
          · rw [if_neg hon, if_neg hon,
              Finset.inter_insert_of_not_mem hion, h1]
        · show (if st = ClientState.ONLINE then insert i s.onlineClients
              else s.onlineClients) ∪
            (if st = ClientState.ONLINE then s.offlineClients
              else insert i s.offlineClients) = Finset.range (i + 1)
          by_cases hon : st = ClientState.ONLINE
          · rw [if_pos hon, if_pos hon, Finset.insert_union, h2,
              Finset.range_succ]
          · rw [if_neg hon, if_neg hon, Finset.union_insert, h2,
              Finset.range_succ]
        · intro j hj
          by_cases hji : j = i
          · subst hji
            show (j ∈ if st = ClientState.ONLINE then insert j s.onlineClients
                else s.onlineClients) ↔
              ((Function.update s.clients j c) j).state = ClientState.ONLINE
            rw [Function.update_same]
            by_cases hon : st = ClientState.ONLINE
            · rw [if_pos hon]
              constructor
              · intro _
                show st = ClientState.ONLINE
                exact hon
              · intro _
                exact Finset.mem_insert_self j _
            · rw [if_neg hon]
              constructor
              · intro hmem
                exact absurd hmem hion
              · intro hcs
                exact absurd hcs hon
          · have hji2 : j < i := by omega
            show (j ∈ if st = ClientState.ONLINE then insert i s.onlineClients
                else s.onlineClients) ↔
              ((Function.update s.clients i c) j).state = ClientState.ONLINE
            rw [Function.update_noteq hji]
            by_cases hon : st = ClientState.ONLINE
            · rw [if_pos hon, Finset.mem_insert]
              constructor
              · intro hmem
                rcases hmem with he | hmem
                · exact absurd he hji
                · exact (h3 j hji2).mp hmem
              · intro hcs
                exact Or.inr ((h3 j hji2).mpr hcs)
            · rw [if_neg hon]
              exact h3 j hji2
        · intro j hj
          by_cases hji : j = i
          · subst hji
            show (Function.update s.clientState j st) j =
              ((Function.update s.clients j c) j).state
            rw [Function.update_same, Function.update_same]
            rfl
          · have hji2 : j < i := by omega
            show (Function.update s.clientState i st) j =
              ((Function.update s.clients i c) j).state
            rw [Function.update_noteq hji, Function.update_noteq hji]
            exact h4 j hji2
        · intro j hj
          by_cases hji : j = i
          · subst hji
            show ((Function.update s.clients j c) j).clientId = j
            rw [Function.update_same]
            rfl
          · have hji2 : j < i := by omega
            show ((Function.update s.clients i c) j).clientId = j
            rw [Function.update_noteq hji]
            exact h5 j hji2
      obtain ⟨ha, hb⟩ := ih (i + 1) s1 hstep
      have harith : i + (rest.length + 1) = (i + 1) + rest.length := by omega
      rw [harith]
      exact ⟨ha, hb⟩

theorem addBuddy_preserves (c : Client) (b : Nat) (st : ClientState) :
    (c.addBuddy b st).2.state = c.state ∧
    (c.addBuddy b st).2.clientId = c.clientId := by
  unfold Client.addBuddy
  split <;> exact ⟨rfl, rfl⟩

theorem addObserver_preserves (c : Client) (o : Nat) :
    (c.addObserver o).2.state = c.state ∧
    (c.addObserver o).2.clientId = c.clientId := by
  unfold Client.addObserver
  split <;> exact ⟨rfl, rfl⟩

/-- Fields of the simulator state untouched by buddy-list generation. -/
def coreEq (s s' : SimState) : Prop :=
  s'.numClients = s.numClients ∧
  s'.onlineClients = s.onlineClients ∧
  s'.offlineClients = s.offlineClients ∧
  s'.clientState = s.clientState ∧
  (∀ i, (s'.clients i).state = (s.clients i).state) ∧
  (∀ i, (s'.clients i).clientId = (s.clients i).clientId)

theorem coreEq_refl (s : SimState) : coreEq s s :=
  ⟨rfl, rfl, rfl, rfl, fun _ => rfl, fun _ => rfl⟩

theorem coreEq_trans (s s1 s2 : SimState) (h1 : coreEq s s1)
    (h2 : coreEq s1 s2) : coreEq s s2 :=
  ⟨h2.1.trans h1.1, h2.2.1.trans h1.2.1, h2.2.2.1.trans h1.2.2.1,
   h2.2.2.2.1.trans h1.2.2.2.1,
   fun i => (h2.2.2.2.2.1 i).trans (h1.2.2.2.2.1 i),
   fun i => (h2.2.2.2.2.2 i).trans (h1.2.2.2.2.2 i)⟩

theorem update_client_coreEq (s : SimState) (j : Nat) (c : GossipClient)
    (hc : c.state = (s.clients j).state)
    (hid : c.clientId = (s.clients j).clientId) :
    coreEq s { s with clients := Function.update s.clients j c } := by
  refine ⟨rfl, rfl, rfl, rfl, ?_, ?_⟩ <;> intro i <;> by_cases hij : i = j
  · subst hij
    show ((Function.update s.clients i c) i).state = (s.clients i).state
    rw [Function.update_same]
    exact hc
  · show ((Function.update s.clients j c) i).state = (s.clients i).state
    rw [Function.update_noteq hij]
  · subst hij
    show ((Function.update s.clients i c) i).clientId = (s.clients i).clientId
    rw [Function.update_same]
    exact hid
  · show ((Function.update s.clients j c) i).clientId = (s.clients i).clientId
    rw [Function.update_noteq hij]

theorem buddyStep_core (nc j x : Nat) (s : SimState) :
    coreEq s (buddyStep nc j x s) := by
  simp only [buddyStep]
  split
  · exact coreEq_trans _ _ _
      (update_client_coreEq s j _ (addBuddy_preserves _ _ _).1
        (addBuddy_preserves _ _ _).2)
      (update_client_coreEq _ (x % nc) _ (addObserver_preserves _ _).1
        (addObserver_preserves _ _).2)
  · exact update_client_coreEq s j _ (addBuddy_preserves _ _ _).1
      (addBuddy_preserves _ _ _).2

theorem buildBuddyLoop_core (bc nc j : Nat) :
    ∀ (tape : List Nat) (s s' : SimState) (tp' : List Nat),
      buildBuddyLoop bc nc j s tape = some (s', tp') → coreEq s s' := by
  intro tape
  induction tape with
  | nil =>
      intro s s' tp' h
      unfold buildBuddyLoop at h
      split at h
      · simp only [Option.some.injEq, Prod.mk.injEq] at h
        rw [← h.1]
        exact coreEq_refl s
      · simp at h
  | cons x rest ih =>
      intro s s' tp' h
      unfold buildBuddyLoop at h
      split at h
      · simp only [Option.some.injEq, Prod.mk.injEq] at h
        rw [← h.1]
        exact coreEq_refl s
      · exact coreEq_trans _ _ _ (buddyStep_core nc j x s) (ih _ _ _ h)

theorem buildBuddiesFrom_core (bc nc : Nat) :
    ∀ (js : List Nat) (s : SimState) (tape : List Nat) (s' : SimState),
      buildBuddiesFrom bc nc js s tape = some s' → coreEq s s' := by
  intro js
  induction js with
  | nil =>
      intro s tape s' h
      unfold buildBuddiesFrom at h
      simp only [Option.some.injEq] at h
      rw [← h]
      exact coreEq_refl s
  | cons j rest ih =>
      intro s tape s' h
      unfold buildBuddiesFrom at h
      split at h
      · simp at h
      · rename_i s1 tape1 hb
        exact coreEq_trans _ _ _ (buildBuddyLoop_core bc nc j tape s s1
          tape1 hb) (ih _ _ _ h)

theorem initSeg_of_coreEq (n : Nat) (s s' : SimState) (h : InitSeg n s)
    (hc : coreEq s s') : InitSeg n s' := by
  obtain ⟨h1, h2, h3, h4, h5⟩ := h
  obtain ⟨c1, c2, c3, c4, c5, c6⟩ := hc
  refine ⟨?_, ?_, ?_, ?_, ?_⟩
  · rw [c2, c3, h1]
  · rw [c2, c3, h2]
  · intro j hj
    rw [c2, c5 j]
    exact h3 j hj
  · intro j hj
    rw [c4, c5 j]
    exact h4 j hj
  · intro j hj
    rw [c6 j]
    exact h5 j hj

theorem initSimulator_wf (bc : Nat) (draws : List (Nat × Nat))
    (tape : List Nat) (s : SimState)
    (h : initSimulator bc draws tape = some s) : SimWF s := by
  unfold initSimulator at h
  have hseg0 : InitSeg 0 (emptySim draws.length) := by
    refine ⟨by simp [emptySim], by simp [emptySim], ?_, ?_, ?_⟩ <;>
      intro j hj <;> omega
  obtain ⟨hseg1, hnum1⟩ := initClientsLoop_inv bc draws.length draws 0
    (emptySim draws.length) hseg0
  have hcore := buildBuddiesFrom_core bc draws.length
    (List.range draws.length)
    (initClientsLoop bc draws.length 0 draws (emptySim draws.length))
    tape s h
  have hseg2 : InitSeg (0 + draws.length) s :=
    initSeg_of_coreEq _ _ _ hseg1 hcore
  have hnum2 : s.numClients = draws.length := by
    rw [hcore.1, hnum1]
    rfl
  obtain ⟨g1, g2, g3, g4, g5⟩ := hseg2
  have hlen : 0 + draws.length = s.numClients := by omega
  rw [hlen] at g2 g3 g4 g5
  exact ⟨⟨g1, g2, g3, g4⟩, g5⟩

theorem switchState_snd (c : Client) :
    (Client.switchState c).2 =
      { c with state := if c.state = ClientState.ONLINE
          then ClientState.OFFLINE else ClientState.ONLINE } := by
  unfold Client.switchState
  cases hc : c.state <;> simp

theorem switchClientState_spec (s : SimState) (cid t d : Nat)
    (hwf : SimWF s) (hcid : cid < s.numClients) :
    SimWF (switchClientState s cid t d) ∧
    1 ≤ d % 4000 + 1 ∧ d % 4000 + 1 ≤ 4000 ∧
    cid ∈ (switchClientState s cid t d).sleepSchedule (t + (d % 4000 + 1)) ∧
    (switchClientState s cid t d).stats.totalSleepTime =
      s.stats.totalSleepTime + (d % 4000 + 1) ∧
    (switchClientState s cid t d).stats.totalSleepStates =
      s.stats.totalSleepStates + 1 ∧
    (switchClientState s cid t d).stats.stateSwitches cid = t ∧
    (switchClientState s cid t d).stats.lastState cid =
      ((switchClientState s cid t d).clients cid).state := by
  obtain ⟨⟨h1, h2, h3, h4⟩, h5⟩ := hwf
  have hid : (s.clients cid).clientId = cid := h5 cid hcid
  have hdisj : ∀ x, x ∈ s.onlineClients → x ∉ s.offlineClients := by
    intro x hx hy
    have hxx : x ∈ s.onlineClients ∩ s.offlineClients :=
      Finset.mem_inter.mpr ⟨hx, hy⟩
    rw [h1] at hxx
    simp at hxx
  have hmemrange : ∀ x,
      (x ∈ s.onlineClients ∨ x ∈ s.offlineClients) ↔ x < s.numClients := by
    intro x
    rw [← Finset.mem_union, h2, Finset.mem_range]
  have hmod : d % 4000 < 4000 := Nat.mod_lt d (by norm_num)
  simp only [switchClientState, switchState_snd, hid]
  unfold SimWF SimInv
  dsimp only
  refine ⟨⟨⟨?_, ?_, ?_, ?_⟩, ?_⟩, ?_, ?_, ?_, ?_, ?_, ?_, ?_⟩
  · by_cases hn : (if (s.clients cid).state = ClientState.ONLINE
        then ClientState.OFFLINE else ClientState.ONLINE) =
        ClientState.ONLINE
    · rw [if_pos hn, if_pos hn]
      ext x
      simp only [Finset.mem_inter, Finset.mem_insert, Finset.mem_erase,
        Finset.not_mem_empty, iff_false]
      rintro ⟨rfl | hx1, hx2, hx3⟩
      · exact hx2 rfl
      · exact hdisj x hx1 hx3
    · rw [if_neg hn, if_neg hn]
      ext x
      simp only [Finset.mem_inter, Finset.mem_insert, Finset.mem_erase,
        Finset.not_mem_empty, iff_false]
      rintro ⟨⟨hne, hx1⟩, rfl | hx3⟩
      · exact hne rfl
      · exact hdisj x hx1 hx3
  · by_cases hn : (if (s.clients cid).state = ClientState.ONLINE
        then ClientState.OFFLINE else ClientState.ONLINE) =
        ClientState.ONLINE
    · rw [if_pos hn, if_pos hn]
      ext x
      simp only [Finset.mem_union, Finset.mem_insert, Finset.mem_erase,
        Finset.mem_range]
      constructor
      · rintro ((rfl | hx) | ⟨-, hx⟩)
        · exact hcid
        · exact (hmemrange x).mp (Or.inl hx)
        · exact (hmemrange x).mp (Or.inr hx)
      · intro hx
        by_cases hxc : x = cid
        · exact Or.inl (Or.inl hxc)
        · rcases (hmemrange x).mpr hx with hon | hoff
          · exact Or.inl (Or.inr hon)
          · exact Or.inr ⟨hxc, hoff⟩
    · rw [if_neg hn, if_neg hn]
      ext x
      simp only [Finset.mem_union, Finset.mem_insert, Finset.mem_erase,
        Finset.mem_range]
      constructor
      · rintro (⟨-, hx⟩ | (rfl | hx))
        · exact (hmemrange x).mp (Or.inl hx)
        · exact hcid
        · exact (hmemrange x).mp (Or.inr hx)
      · intro hx
        by_cases hxc : x = cid
        · exact Or.inr (Or.inl hxc)
        · rcases (hmemrange x).mpr hx with hon | hoff
          · exact Or.inl ⟨hxc, hon⟩
          · exact Or.inr (Or.inr hoff)
  · intro i hi
    by_cases hic : i = cid
    · subst hic
      rw [Function.update_same]
      by_cases hn : (if (s.clients i).state = ClientState.ONLINE
          then ClientState.OFFLINE else ClientState.ONLINE) =
          ClientState.ONLINE
      · rw [if_pos hn]
        constructor
        · intro _
          exact hn
        · intro _
          exact Finset.mem_insert_self i _
      · rw [if_neg hn]
        constructor
        · intro hmem
          exact absurd rfl (Finset.mem_erase.mp hmem).1
        · intro hst
          exact absurd hst hn
    · rw [Function.update_noteq hic]
      by_cases hn : (if (s.clients cid).state = ClientState.ONLINE
          then ClientState.OFFLINE else ClientState.ONLINE) =
          ClientState.ONLINE
      · rw [if_pos hn, Finset.mem_insert]
        constructor
        · rintro (he | hmem)
          · exact absurd he hic
          · exact (h3 i hi).mp hmem
        · intro hst
          exact Or.inr ((h3 i hi).mpr hst)
      · rw [if_neg hn, Finset.mem_erase]
        constructor
        · rintro ⟨-, hmem⟩
          exact (h3 i hi).mp hmem
        · intro hst
          exact ⟨hic, (h3 i hi).mpr hst⟩
  · intro i hi
    by_cases hic : i = cid
    · subst hic
      rw [Function.update_same, Function.update_same]
    · rw [Function.update_noteq hic, Function.update_noteq hic]
      exact h4 i hi
  · intro i hi
    by_cases hic : i = cid
    · subst hic
      rw [Function.update_same]
    · rw [Function.update_noteq hic]
      exact h5 i hi
  · omega
  · omega
  · rw [Function.update_same]
    exact Finset.mem_insert_self cid _
  · rfl
  · rfl
  · show (Function.update s.stats.stateSwitches cid t) cid = t
    rw [Function.update_same]
  · show (Function.update s.stats.lastState cid _) cid = _
    rw [Function.update_same, Function.update_same]

/-- Claim C7: after initialization and after every `switchClientState`
call the simulator state satisfies the invariant: `onlineClients` and
`offlineClients` are disjoint and their union is the id range; an id is
in `onlineClients` iff its client's state is `ONLINE`; and the canonical
`clientState` table mirrors the clients (well-formedness also carries id
coherence of the client array, which both operations preserve).
`switchClientState` additionally schedules a new toggle for the id at
`timestamp + d` with `d` in `[1, 4000]`, adds `d` to the total sleep
time, increments the sleep-state count, and records the switch
`(id, timestamp, newState)` in the stats sink. -/
theorem simulator_invariant_spec :
    (∀ (bc : Nat) (draws : List (Nat × Nat)) (tape : List Nat)
        (s : SimState),
      initSimulator bc draws tape = some s → SimWF s) ∧
    (∀ (s : SimState) (cid t d : Nat), SimWF s → cid < s.numClients →
      SimWF (switchClientState s cid t d) ∧
      1 ≤ d % 4000 + 1 ∧ d % 4000 + 1 ≤ 4000 ∧
      cid ∈ (switchClientState s cid t d).sleepSchedule
        (t + (d % 4000 + 1)) ∧
      (switchClientState s cid t d).stats.totalSleepTime =
        s.stats.totalSleepTime + (d % 4000 + 1) ∧
      (switchClientState s cid t d).stats.totalSleepStates =
        s.stats.totalSleepStates + 1 ∧
      (switchClientState s cid t d).stats.stateSwitches cid = t ∧
      (switchClientState s cid t d).stats.lastState cid =
        ((switchClientState s cid t d).clients cid).state) :=
  ⟨fun bc draws tape s h => initSimulator_wf bc draws tape s h,
   fun s cid t d hwf hcid => switchClientState_spec s cid t d hwf hcid⟩

/-- Witness for C7: a concrete two-client simulator is well-formed after
initialization and stays so after a state toggle. -/
theorem simulator_invariant_witness :
    SimWF (switchClientState
      ((initSimulator 1 [(0, 0), (0, 1)] [1, 0]).getD (emptySim 0))
      0 5 7) := by
  have h1 := simulator_invariant_spec.1 1 [(0, 0), (0, 1)] [1, 0]
    ((initSimulator 1 [(0, 0), (0, 1)] [1, 0]).getD (emptySim 0)) rfl
  exact (simulator_invariant_spec.2
    ((initSimulator 1 [(0, 0), (0, 1)] [1, 0]).getD (emptySim 0))
    0 5 7 h1 (by decide)).1
